import Mathlib

/-!
# Traffic selector substructure (charon, `traffic_selector_substructure.c`)

A shallow embedding of the payload object of
`Source/charon/encoding/payloads/traffic_selector_substructure.c` and theorems
about its validation, its setters and its wire length.

Machine integers are natural numbers; a store into a `u_int8_t` or `u_int16_t`
field reduces modulo `2^8` or `2^16` where the stored expression can exceed
the width.
-/

namespace TrafficSelector

/-! ## Declarations the file relies on -/

/-- The two values of `status_t` that `verify` returns. -/
inductive status_t where
  | SUCCESS
  | FAILED
deriving DecidableEq, Repr

/-- A `chunk_t`: a pointer and a length. `ptr` is `none` for `NULL` and
otherwise holds the bytes pointed to; `len` is the `len` member. -/
structure chunk_t where
  ptr : Option (List Nat)
  len : Nat
deriving DecidableEq, Repr

/-- Modelled from the spec: `CHUNK_INITIALIZER` is defined in a header that is
not among the sources; a default-constructed payload has "both addresses
empty", i.e. the chunk with a `NULL` pointer and length 0. -/
def CHUNK_INITIALIZER : chunk_t := { ptr := none, len := 0 }

/-- Modelled from the spec: `TRAFFIC_SELECTOR_HEADER_LENGTH` is defined in
`traffic_selector_substructure.h`, which is not among the sources; the spec
gives the "fixed header size (8 bytes: 1+1+2+2+2)". -/
def TRAFFIC_SELECTOR_HEADER_LENGTH : Nat := 8

/-- Modelled from the spec: `allocator_free_chunk` (`utils/allocator.h`) is
not among the sources; it releases the buffer a chunk owns, after which the
chunk is empty. -/
def allocator_free_chunk (_chunk : chunk_t) : chunk_t := CHUNK_INITIALIZER

/-- The constants of headers that are not among the sources, taken as
parameters: the two enumerators of `ts_type_t` and the address family
`AF_INET`. The enumerators label two different cases of the `switch` in
`verify`, so they differ (`distinct`); `create` stores `TS_IPV4_ADDR_RANGE` in
the `u_int8_t` member `ts_type`, which `verify` compares with the enumerator
again, so the enumerator fits 8 bits (`ipv4_u8`). -/
structure Env where
  TS_IPV4_ADDR_RANGE : Nat
  TS_IPV6_ADDR_RANGE : Nat
  AF_INET : Nat
  distinct : TS_IPV4_ADDR_RANGE ≠ TS_IPV6_ADDR_RANGE
  ipv4_u8 : TS_IPV4_ADDR_RANGE < 256

/-- The values the IKEv2 registry and the BSD socket interface give the
parameters: selector types 7 and 8, address family 2. -/
def ikev2 : Env :=
  { TS_IPV4_ADDR_RANGE := 7
    TS_IPV6_ADDR_RANGE := 8
    AF_INET := 2
    distinct := by decide
    ipv4_u8 := by decide }

/-- Modelled from the spec: `host_t` (`network/host.h`) is not among the
sources. The spec's Host collaborator offers `host.port() -> u16`,
`host.address_bytes() -> byte-buffer` and a constructor
`host_from(address_family, address_bytes, port) -> Host`: a host is the
triple of an address family, address bytes and a port. -/
structure host_t where
  family : Nat
  address : chunk_t
  port : Nat
deriving DecidableEq, Repr

/-- Modelled from the spec: `host.port() -> u16`, the port as a 16-bit
value. -/
def host_t.get_port (h : host_t) : Nat := h.port % 65536

/-- Modelled from the spec: `host.address_bytes() -> byte-buffer`, the raw
address bytes of the host in a chunk of their own. -/
def host_t.get_address_as_chunk (h : host_t) : chunk_t := h.address

/-- Modelled from the spec: `host_from(address_family, address_bytes, port)`,
the host with that family, those address bytes and that (`u_int16_t`) port. -/
def host_create_from_chunk (family : Nat) (address : chunk_t) (port : Nat) : host_t :=
  { family := family, address := address, port := port % 65536 }

/-! ## The payload object -/

/-- The data members of `private_traffic_selector_substructure_t`. -/
structure private_traffic_selector_substructure_t where
  ts_type : Nat
  ip_protocol_id : Nat
  payload_length : Nat
  start_port : Nat
  end_port : Nat
  starting_address : chunk_t
  ending_address : chunk_t
deriving DecidableEq, Repr

/-- Implementation of `payload_t.verify`. -/
def verify (K : Env) (this : private_traffic_selector_substructure_t) : status_t :=
  if this.start_port > this.end_port then
    status_t.FAILED
  else if this.ts_type = K.TS_IPV4_ADDR_RANGE then
    if this.starting_address.len ≠ 4 ∨ this.ending_address.len ≠ 4 then
      status_t.FAILED
    else
      status_t.SUCCESS
  else if this.ts_type = K.TS_IPV6_ADDR_RANGE then
    status_t.FAILED
  else
    status_t.FAILED

/-- Implementation of `payload_t.get_next_type`. -/
def get_next_type (_this : private_traffic_selector_substructure_t) : Nat := 0

/-- Implementation of `payload_t.set_next_type`: the body is empty. -/
def set_next_type (this : private_traffic_selector_substructure_t) (_type : Nat) :
    private_traffic_selector_substructure_t :=
  this

/-- Implementation of `payload_t.get_length`. -/
def get_length (this : private_traffic_selector_substructure_t) : Nat :=
  this.payload_length

/-- Implementation of `traffic_selector_substructure_t.get_ts_type`. -/
def get_ts_type (this : private_traffic_selector_substructure_t) : Nat :=
  this.ts_type

/-- Implementation of `traffic_selector_substructure_t.set_ts_type`: the
`ts_type_t` argument is stored in a `u_int8_t`. -/
def set_ts_type (this : private_traffic_selector_substructure_t) (ts_type : Nat) :
    private_traffic_selector_substructure_t :=
  { this with ts_type := ts_type % 256 }

/-- Implementation of `traffic_selector_substructure_t.get_protocol_id`. -/
def get_protocol_id (this : private_traffic_selector_substructure_t) : Nat :=
  this.ip_protocol_id

/-- Implementation of `traffic_selector_substructure_t.set_protocol_id`: the
argument is a `u_int8_t`. -/
def set_protocol_id (this : private_traffic_selector_substructure_t) (protocol_id : Nat) :
    private_traffic_selector_substructure_t :=
  { this with ip_protocol_id := protocol_id % 256 }

/-- Implementation of `traffic_selector_substructure_t.get_start_host`: the
new host and the object, which the function does not write. -/
def get_start_host (K : Env) (this : private_traffic_selector_substructure_t) :
    host_t × private_traffic_selector_substructure_t :=
  (host_create_from_chunk K.AF_INET this.starting_address this.start_port, this)

/-- Implementation of `traffic_selector_substructure_t.set_start_host`. -/
def set_start_host (this : private_traffic_selector_substructure_t) (start_host : host_t) :
    private_traffic_selector_substructure_t :=
  let this := { this with start_port := start_host.get_port % 65536 }
  let this :=
    if this.starting_address.ptr ≠ none then
      { this with starting_address := allocator_free_chunk this.starting_address }
    else this
  let this := { this with starting_address := start_host.get_address_as_chunk }
  { this with
    payload_length :=
      (TRAFFIC_SELECTOR_HEADER_LENGTH + this.starting_address.len + this.ending_address.len)
        % 65536 }

/-- Implementation of `traffic_selector_substructure_t.get_end_host`: the new
host and the object, which the function does not write. -/
def get_end_host (K : Env) (this : private_traffic_selector_substructure_t) :
    host_t × private_traffic_selector_substructure_t :=
  (host_create_from_chunk K.AF_INET this.ending_address this.end_port, this)

/-- Implementation of `traffic_selector_substructure_t.set_end_host`. -/
def set_end_host (this : private_traffic_selector_substructure_t) (end_host : host_t) :
    private_traffic_selector_substructure_t :=
  let this := { this with end_port := end_host.get_port % 65536 }
  let this :=
    if this.ending_address.ptr ≠ none then
      { this with ending_address := allocator_free_chunk this.ending_address }
    else this
  let this := { this with ending_address := end_host.get_address_as_chunk }
  { this with
    payload_length :=
      (TRAFFIC_SELECTOR_HEADER_LENGTH + this.starting_address.len + this.ending_address.len)
        % 65536 }

/-- The private variables `traffic_selector_substructure_create` sets; the
argument `is_initiator` is not used by the body. -/
def traffic_selector_substructure_create (K : Env) (_is_initiator : Bool) :
    private_traffic_selector_substructure_t :=
  { payload_length := TRAFFIC_SELECTOR_HEADER_LENGTH
    start_port := 0
    end_port := 0
    starting_address := CHUNK_INITIALIZER
    ending_address := CHUNK_INITIALIZER
    ip_protocol_id := 0
    ts_type := K.TS_IPV4_ADDR_RANGE % 256 }

/-! ## Sequences of setter calls -/

/-- One call of a setter of the public interface, with its argument. -/
inductive setter_call where
  | set_start_host (start_host : host_t)
  | set_end_host (end_host : host_t)
  | set_ts_type (ts_type : Nat)
  | set_protocol_id (protocol_id : Nat)
  | set_next_type (type : Nat)
deriving DecidableEq, Repr

/-- The object after one setter call. -/
def setter_call.apply (this : private_traffic_selector_substructure_t) :
    setter_call → private_traffic_selector_substructure_t
  | .set_start_host h => TrafficSelector.set_start_host this h
  | .set_end_host h => TrafficSelector.set_end_host this h
  | .set_ts_type t => TrafficSelector.set_ts_type this t
  | .set_protocol_id p => TrafficSelector.set_protocol_id this p
  | .set_next_type t => TrafficSelector.set_next_type this t

/-- The object after a sequence of setter calls, first call first. -/
def run_calls (this : private_traffic_selector_substructure_t) (calls : List setter_call) :
    private_traffic_selector_substructure_t :=
  calls.foldl setter_call.apply this

/-- A host with a 4-byte address: family, the four bytes, port. -/
def host_ipv4 (K : Env) (a b c d port : Nat) : host_t :=
  { family := K.AF_INET, address := { ptr := some [a, b, c, d], len := 4 }, port := port }

/-- A host whose address chunk holds `n` zero bytes. -/
def host_of_length (K : Env) (n port : Nat) : host_t :=
  { family := K.AF_INET, address := { ptr := some (List.replicate n 0), len := n }, port := port }

/-- The stored length agrees with the two address lengths, as a 16-bit value. -/
def length_consistent (this : private_traffic_selector_substructure_t) : Prop :=
  this.payload_length =
    (8 + this.starting_address.len + this.ending_address.len) % 65536

/-! ## Encoding rules -/

/-- The encoding types the rule table uses; `encoding_type_t` is declared in
`encoding/payloads/encodings.h`, which is not among the sources, with further
values that this table does not use. -/
inductive encoding_type_t where
  | TS_TYPE
  | U_INT_8
  | PAYLOAD_LENGTH
  | U_INT_16
  | ADDRESS
deriving DecidableEq, Repr

/-- The data members of `private_traffic_selector_substructure_t`: a value
stands for `offsetof(private_traffic_selector_substructure_t, member)`. -/
inductive member_t where
  | ts_type
  | ip_protocol_id
  | payload_length
  | start_port
  | end_port
  | starting_address
  | ending_address
deriving DecidableEq, Repr

/-- An `encoding_rule_t`: an encoding type and the offset of a member. -/
structure encoding_rule_t where
  type : encoding_type_t
  offset : member_t
deriving DecidableEq, Repr

/-- Encoding rules to parse or generate a TS payload. -/
def traffic_selector_substructure_encodings : List encoding_rule_t :=
  [ { type := encoding_type_t.TS_TYPE, offset := member_t.ts_type },
    { type := encoding_type_t.U_INT_8, offset := member_t.ip_protocol_id },
    { type := encoding_type_t.PAYLOAD_LENGTH, offset := member_t.payload_length },
    { type := encoding_type_t.U_INT_16, offset := member_t.start_port },
    { type := encoding_type_t.U_INT_16, offset := member_t.end_port },
    { type := encoding_type_t.ADDRESS, offset := member_t.starting_address },
    { type := encoding_type_t.ADDRESS, offset := member_t.ending_address } ]

/-- Implementation of `traffic_selector_substructure_t.get_encoding_rules`:
the two out-parameters `rules` and `rule_count`; the count is the size of the
table divided by the size of one rule, i.e. its number of entries. -/
def get_encoding_rules (_this : private_traffic_selector_substructure_t) :
    List encoding_rule_t × Nat :=
  (traffic_selector_substructure_encodings, traffic_selector_substructure_encodings.length)

/-- Modelled from the spec: the wire width of a fixed-width field kind, which
the generator and parser (not among the sources) define: "1+1+2+2+2" for the
selector type byte, the 8-bit value, the 16-bit total length and the two 16-bit
values; a variable address contributes no fixed byte. -/
def encoding_type_t.fixed_width : encoding_type_t → Nat
  | .TS_TYPE => 1
  | .U_INT_8 => 1
  | .PAYLOAD_LENGTH => 2
  | .U_INT_16 => 2
  | .ADDRESS => 0

/-- The total of the fixed widths of a rule table. -/
def fixed_bytes (rules : List encoding_rule_t) : Nat :=
  (rules.map fun r => r.type.fixed_width).sum

/-! ## The codec engine -/

/-- The integer member at an offset; the rule table pairs an integer rule
only with an integer member, for a chunk member the value is 0. -/
def member_t.read_integer (this : private_traffic_selector_substructure_t) : member_t → Nat
  | .ts_type => this.ts_type
  | .ip_protocol_id => this.ip_protocol_id
  | .payload_length => this.payload_length
  | .start_port => this.start_port
  | .end_port => this.end_port
  | .starting_address => 0
  | .ending_address => 0

/-- The chunk member at an offset; the rule table pairs an address rule only
with a chunk member, for an integer member the value is the empty chunk. -/
def member_t.read_chunk (this : private_traffic_selector_substructure_t) : member_t → chunk_t
  | .starting_address => this.starting_address
  | .ending_address => this.ending_address
  | _ => CHUNK_INITIALIZER

/-- The object with an integer stored in the integer member at an offset. -/
def member_t.write_integer (this : private_traffic_selector_substructure_t) (v : Nat) :
    member_t → private_traffic_selector_substructure_t
  | .ts_type => { this with ts_type := v }
  | .ip_protocol_id => { this with ip_protocol_id := v }
  | .payload_length => { this with payload_length := v }
  | .start_port => { this with start_port := v }
  | .end_port => { this with end_port := v }
  | .starting_address => this
  | .ending_address => this

/-- The object with a chunk stored in the chunk member at an offset. -/
def member_t.write_chunk (this : private_traffic_selector_substructure_t) (c : chunk_t) :
    member_t → private_traffic_selector_substructure_t
  | .starting_address => { this with starting_address := c }
  | .ending_address => { this with ending_address := c }
  | _ => this

/-- The bytes a chunk holds: the first `len` bytes behind its pointer. -/
def chunk_t.bytes (c : chunk_t) : List Nat :=
  match c.ptr with
  | none => []
  | some bs => bs.take c.len

/-- Modelled from the spec: the generator is not among the sources. The wire
representation of one field, "in network byte order": one byte for the
selector type and the 8-bit value, two bytes, high byte first, for the total
length ("written using the payload's own wire-length field") and the 16-bit
values, and for a variable address "the raw bytes of the referenced buffer
as-is". -/
def generate_rule (this : private_traffic_selector_substructure_t) (r : encoding_rule_t) :
    List Nat :=
  match r.type with
  | .TS_TYPE => [r.offset.read_integer this % 256]
  | .U_INT_8 => [r.offset.read_integer this % 256]
  | .PAYLOAD_LENGTH =>
    [r.offset.read_integer this / 256 % 256, r.offset.read_integer this % 256]
  | .U_INT_16 =>
    [r.offset.read_integer this / 256 % 256, r.offset.read_integer this % 256]
  | .ADDRESS => (r.offset.read_chunk this).bytes

/-- Modelled from the spec: `encode(payload, table) -> byte-stream` "iterates
`table` in order; for each rule, reads the referenced field and appends its
wire representation". -/
def encode (this : private_traffic_selector_substructure_t) (table : List encoding_rule_t) :
    List Nat :=
  (table.map (generate_rule this)).flatten

/-- Modelled from the spec: the two ways a parse fails. -/
inductive ParseError where
  | Truncated
  | LengthMismatch
deriving DecidableEq, Repr

/-- The state of a parse: the bytes not yet consumed, the number of bytes
consumed, and the instance being populated. -/
structure parse_state where
  input : List Nat
  consumed : Nat
  out : private_traffic_selector_substructure_t
deriving DecidableEq, Repr

/-- The value of a sequence of bytes in network byte order. -/
def network_order_value (bs : List Nat) : Nat :=
  bs.foldl (fun acc b => acc * 256 + b) 0

/-- Modelled from the spec: a fixed-kind field consumes "the exact byte width"
and the parse "fails with `ParseError::Truncated` if fewer bytes remain than a
rule requires". -/
def parse_integer (width : Nat) (m : member_t) (st : parse_state) :
    Except ParseError parse_state :=
  if st.input.length < width then
    Except.error ParseError.Truncated
  else
    Except.ok
      { input := st.input.drop width
        consumed := st.consumed + width
        out := m.write_integer st.out (network_order_value (st.input.take width)) }

/-- Modelled from the spec: the parser is not among the sources. One rule of a
parse; `addresses` is the number of address rules from this rule on. The
declared total length is the one recorded by the total-length rule in
`payload_length`. A variable address takes 4 bytes when the selector type
already parsed is the IPv4 one ("inspects `selector_type` first and pre-sizes
both buffers to 4 bytes"), and otherwise its even share of the bytes that
"make the running count equal the remembered total length"; the body "must not
be read past" the declared length. -/
def parse_rule (K : Env) (addresses : Nat) (r : encoding_rule_t) (st : parse_state) :
    Except ParseError parse_state :=
  match r.type with
  | .TS_TYPE => parse_integer 1 r.offset st
  | .U_INT_8 => parse_integer 1 r.offset st
  | .PAYLOAD_LENGTH => parse_integer 2 r.offset st
  | .U_INT_16 => parse_integer 2 r.offset st
  | .ADDRESS =>
    let width :=
      if st.out.ts_type = K.TS_IPV4_ADDR_RANGE then 4
      else (st.out.payload_length - st.consumed) / addresses
    if st.consumed + width > st.out.payload_length then
      Except.error ParseError.LengthMismatch
    else if st.input.length < width then
      Except.error ParseError.Truncated
    else
      Except.ok
        { input := st.input.drop width
          consumed := st.consumed + width
          out := r.offset.write_chunk st.out { ptr := some (st.input.take width), len := width } }

/-- The number of address rules of a table. -/
def address_rules (table : List encoding_rule_t) : Nat :=
  (table.filter fun r => r.type = encoding_type_t.ADDRESS).length

/-- Modelled from the spec: the rules of a table applied in order, the first
failure ending the parse. -/
def parse_rules (K : Env) : List encoding_rule_t → parse_state → Except ParseError parse_state
  | [], st => Except.ok st
  | r :: rest, st =>
    match parse_rule K (address_rules (r :: rest)) r st with
    | Except.error e => Except.error e
    | Except.ok st1 => parse_rules K rest st1

/-- Modelled from the spec: `decode(byte-stream, table) -> payload |
ParseError` populates an instance "constructed with defaults" by the rules of
the table in order and fails with `ParseError::LengthMismatch` "if the declared
total length disagrees with the sum of consumed field widths". -/
def decode (K : Env) (input : List Nat) (table : List encoding_rule_t) :
    Except ParseError private_traffic_selector_substructure_t :=
  match parse_rules K table
      { input := input, consumed := 0, out := traffic_selector_substructure_create K false } with
  | Except.error e => Except.error e
  | Except.ok st =>
    if st.out.payload_length ≠ st.consumed then Except.error ParseError.LengthMismatch
    else Except.ok st.out

/-- The members hold values of their C types: the integers fit their widths
and each address chunk points to exactly `len` bytes. -/
def in_range (this : private_traffic_selector_substructure_t) : Prop :=
  this.ts_type < 256 ∧ this.ip_protocol_id < 256 ∧ this.payload_length < 65536 ∧
  this.start_port < 65536 ∧ this.end_port < 65536 ∧
  this.starting_address.ptr.map List.length = some this.starting_address.len ∧
  this.ending_address.ptr.map List.length = some this.ending_address.len

instance (this : private_traffic_selector_substructure_t) : Decidable (in_range this) := by
  unfold in_range
  infer_instance

/-- The validated instance of the end-to-end example with a stored length
of `n`. -/
def example_selector (n : Nat) : private_traffic_selector_substructure_t :=
  { ts_type := 7, ip_protocol_id := 6, payload_length := n, start_port := 1024,
    end_port := 65535, starting_address := { ptr := some [10, 0, 0, 1], len := 4 },
    ending_address := { ptr := some [10, 0, 0, 255], len := 4 } }

/-! ## The address buffers in memory -/

/-- Modelled from the spec: the allocator (`utils/allocator.h`) is not among
the sources. The heap is the sequence of the blocks allocated so far, in the
order of their allocation: the address of a block is its position, a live
block holds its bytes, and a block that has been released is `none`. -/
structure heap_t where
  blocks : List (Option (List Nat))
deriving DecidableEq, Repr

/-- Modelled from the spec: allocating a buffer gives a new block, at an
address no block had before. The result is the address and the new heap. -/
def heap_t.alloc (heap : heap_t) (bytes : List Nat) : Nat × heap_t :=
  (heap.blocks.length, { blocks := heap.blocks ++ [some bytes] })

/-- Modelled from the spec: releasing the block at an address. -/
def heap_t.free (heap : heap_t) (address : Nat) : heap_t :=
  { blocks := heap.blocks.set address none }

/-- The bytes of the live block at an address, `none` when no live block is
there. -/
def heap_t.read (heap : heap_t) (address : Nat) : Option (List Nat) :=
  (heap.blocks[address]?).join

/-- The number of live blocks, those allocated and not released. -/
def heap_t.live_blocks (heap : heap_t) : Nat :=
  (heap.blocks.filter Option.isSome).length

/-- A `chunk_t` as it lies in memory: `ptr` is `NULL` or the address of a
block of the heap. -/
structure chunk_in_memory where
  ptr : Option Nat
  len : Nat
deriving DecidableEq, Repr

/-- The data members of `private_traffic_selector_substructure_t` as they lie
in memory, the two chunks holding addresses. -/
structure object_in_memory where
  ts_type : Nat
  ip_protocol_id : Nat
  payload_length : Nat
  start_port : Nat
  end_port : Nat
  starting_address : chunk_in_memory
  ending_address : chunk_in_memory
deriving DecidableEq, Repr

/-- The chunk a chunk in memory stands for: the bytes found at its address. -/
def chunk_in_memory.value (heap : heap_t) (c : chunk_in_memory) : chunk_t :=
  { ptr := c.ptr.bind heap.read, len := c.len }

/-- The object an object in memory stands for. -/
def object_in_memory.value (m : heap_t × object_in_memory) :
    private_traffic_selector_substructure_t :=
  { ts_type := m.2.ts_type
    ip_protocol_id := m.2.ip_protocol_id
    payload_length := m.2.payload_length
    start_port := m.2.start_port
    end_port := m.2.end_port
    starting_address := m.2.starting_address.value m.1
    ending_address := m.2.ending_address.value m.1 }

/-- Modelled from the spec: `allocator_free_chunk` on a chunk in memory
releases the block the chunk points to and leaves the chunk empty. -/
def allocator_free_chunk_in_memory (heap : heap_t) (chunk : chunk_in_memory) :
    heap_t × chunk_in_memory :=
  match chunk.ptr with
  | none => (heap, { ptr := none, len := 0 })
  | some address => (heap.free address, { ptr := none, len := 0 })

/-- Modelled from the spec: `host.address_bytes() -> byte-buffer` in memory:
the raw address bytes of the host in a newly allocated block, which the
caller owns from then on. -/
def host_t.get_address_as_chunk_in_memory (h : host_t) (heap : heap_t) :
    heap_t × chunk_in_memory :=
  match h.address.ptr with
  | none => (heap, { ptr := none, len := h.address.len })
  | some bytes => ((heap.alloc bytes).2, { ptr := some (heap.alloc bytes).1, len := h.address.len })

/-- Implementation of `traffic_selector_substructure_t.set_start_host`, on the
object in memory and the heap. -/
def set_start_host_in_memory (m : heap_t × object_in_memory) (start_host : host_t) :
    heap_t × object_in_memory :=
  let heap := m.1
  let this : object_in_memory := { m.2 with start_port := start_host.get_port % 65536 }
  let freed :=
    if this.starting_address.ptr ≠ none then
      allocator_free_chunk_in_memory heap this.starting_address
    else (heap, this.starting_address)
  let this := { this with starting_address := freed.2 }
  let got := start_host.get_address_as_chunk_in_memory freed.1
  let this := { this with starting_address := got.2 }
  (got.1,
    { this with
      payload_length :=
        (TRAFFIC_SELECTOR_HEADER_LENGTH + this.starting_address.len + this.ending_address.len)
          % 65536 })

/-- Implementation of `traffic_selector_substructure_t.set_end_host`, on the
object in memory and the heap. -/
def set_end_host_in_memory (m : heap_t × object_in_memory) (end_host : host_t) :
    heap_t × object_in_memory :=
  let heap := m.1
  let this : object_in_memory := { m.2 with end_port := end_host.get_port % 65536 }
  let freed :=
    if this.ending_address.ptr ≠ none then
      allocator_free_chunk_in_memory heap this.ending_address
    else (heap, this.ending_address)
  let this := { this with ending_address := freed.2 }
  let got := end_host.get_address_as_chunk_in_memory freed.1
  let this := { this with ending_address := got.2 }
  (got.1,
    { this with
      payload_length :=
        (TRAFFIC_SELECTOR_HEADER_LENGTH + this.starting_address.len + this.ending_address.len)
          % 65536 })

/-- The two sides of an object in memory own different blocks of the heap:
an address held by one chunk is an address of the heap and is not held by the
other chunk. -/
def owns_its_buffers (m : heap_t × object_in_memory) : Prop :=
  (∀ a, m.2.starting_address.ptr = some a → a < m.1.blocks.length) ∧
  (∀ a, m.2.ending_address.ptr = some a → a < m.1.blocks.length) ∧
  (∀ a, m.2.starting_address.ptr = some a → m.2.ending_address.ptr ≠ some a)

/-! ## Instances -/

/-- A chunk is empty, with a `NULL` pointer and length 0, or points to exactly
`len` bytes. -/
def chunk_t.well_formed (c : chunk_t) : Prop :=
  match c.ptr with
  | none => c.len = 0
  | some bs => bs.length = c.len

/-- The host argument of a setter call hands out a well-formed address
chunk. -/
def setter_call.well_formed : setter_call → Prop
  | .set_start_host h => h.get_address_as_chunk.well_formed
  | .set_end_host h => h.get_address_as_chunk.well_formed
  | .set_ts_type _ => True
  | .set_protocol_id _ => True
  | .set_next_type _ => True

/-- The instances of the payload: an object is created by
`traffic_selector_substructure_create` or populated by `decode` from a
sequence of bytes, and then changed by setter calls. -/
inductive reachable (K : Env) : private_traffic_selector_substructure_t → Prop
  | create (is_initiator : Bool) :
    reachable K (traffic_selector_substructure_create K is_initiator)
  | decode (input : List Nat) (this : private_traffic_selector_substructure_t)
    (hbytes : ∀ b ∈ input, b < 256)
    (hdecode : decode K input traffic_selector_substructure_encodings = Except.ok this) :
    reachable K this
  | setter (this : private_traffic_selector_substructure_t) (c : setter_call)
    (hthis : reachable K this) (hc : c.well_formed) : reachable K (c.apply this)

/-- What every instance satisfies: the integer members fit their widths, the
two address chunks are well-formed and the stored length agrees with the two
address lengths. -/
def instance_invariant (this : private_traffic_selector_substructure_t) : Prop :=
  this.ts_type < 256 ∧ this.ip_protocol_id < 256 ∧
  this.start_port < 65536 ∧ this.end_port < 65536 ∧
  this.starting_address.well_formed ∧ this.ending_address.well_formed ∧
  length_consistent this

/-! ## Helper lemmas -/

theorem create_ts_type (K : Env) (b : Bool) :
    (traffic_selector_substructure_create K b).ts_type = K.TS_IPV4_ADDR_RANGE := by
  simp [traffic_selector_substructure_create, Nat.mod_eq_of_lt K.ipv4_u8]

theorem get_port_mod (h : host_t) : h.get_port % 65536 = h.get_port := by
  simp [host_t.get_port]

theorem set_start_host_eq (this : private_traffic_selector_substructure_t) (h : host_t) :
    set_start_host this h =
      { this with
        start_port := h.get_port
        starting_address := h.get_address_as_chunk
        payload_length :=
          (8 + h.get_address_as_chunk.len + this.ending_address.len) % 65536 } := by
  unfold set_start_host
  by_cases hp : this.starting_address.ptr = none <;>
    simp [hp, get_port_mod, TRAFFIC_SELECTOR_HEADER_LENGTH]

theorem set_end_host_eq (this : private_traffic_selector_substructure_t) (h : host_t) :
    set_end_host this h =
      { this with
        end_port := h.get_port
        ending_address := h.get_address_as_chunk
        payload_length :=
          (8 + this.starting_address.len + h.get_address_as_chunk.len) % 65536 } := by
  unfold set_end_host
  by_cases hp : this.ending_address.ptr = none <;>
    simp [hp, get_port_mod, TRAFFIC_SELECTOR_HEADER_LENGTH]

theorem length_consistent_create (K : Env) (b : Bool) :
    length_consistent (traffic_selector_substructure_create K b) := by
  simp [length_consistent, traffic_selector_substructure_create, CHUNK_INITIALIZER,
    TRAFFIC_SELECTOR_HEADER_LENGTH]

theorem length_consistent_apply (this : private_traffic_selector_substructure_t)
    (c : setter_call) (h : length_consistent this) : length_consistent (c.apply this) := by
  cases c with
  | set_start_host a => simp [setter_call.apply, set_start_host_eq, length_consistent]
  | set_end_host a => simp [setter_call.apply, set_end_host_eq, length_consistent]
  | set_ts_type t => simpa [setter_call.apply, set_ts_type, length_consistent] using h
  | set_protocol_id p => simpa [setter_call.apply, set_protocol_id, length_consistent] using h
  | set_next_type t => simpa [setter_call.apply, set_next_type, length_consistent] using h

theorem length_consistent_run (calls : List setter_call) :
    ∀ this : private_traffic_selector_substructure_t,
      length_consistent this → length_consistent (run_calls this calls) := by
  induction calls with
  | nil => intro this h; simpa [run_calls] using h
  | cons c cs ih =>
    intro this h
    have := ih (c.apply this) (length_consistent_apply this c h)
    simpa [run_calls] using this

theorem verify_eq_success (K : Env) (this : private_traffic_selector_substructure_t)
    (hp : this.start_port ≤ this.end_port) (ht : this.ts_type = K.TS_IPV4_ADDR_RANGE)
    (hs : this.starting_address.len = 4) (he : this.ending_address.len = 4) :
    verify K this = status_t.SUCCESS := by
  simp [verify, Nat.not_lt.mpr hp, ht, hs, he]

theorem verify_eq_failed_of_len (K : Env) (this : private_traffic_selector_substructure_t)
    (h : this.starting_address.len ≠ 4 ∨ this.ending_address.len ≠ 4) :
    verify K this = status_t.FAILED := by
  unfold verify
  by_cases hp : this.start_port > this.end_port
  · simp [hp]
  · by_cases ht : this.ts_type = K.TS_IPV4_ADDR_RANGE
    · rw [if_neg hp, if_pos ht, if_pos h]
    · simp [hp, ht]

theorem verify_success_imp (K : Env) (this : private_traffic_selector_substructure_t)
    (h : verify K this = status_t.SUCCESS) :
    this.start_port ≤ this.end_port ∧ this.ts_type = K.TS_IPV4_ADDR_RANGE ∧
      this.starting_address.len = 4 ∧ this.ending_address.len = 4 := by
  unfold verify at h
  by_cases hp : this.start_port > this.end_port
  · simp [hp] at h
  · by_cases ht : this.ts_type = K.TS_IPV4_ADDR_RANGE
    · by_cases hs : this.starting_address.len = 4
      · by_cases he : this.ending_address.len = 4
        · exact ⟨Nat.le_of_not_gt hp, ht, hs, he⟩
        · simp [hp, ht, hs, he] at h
      · simp [hp, ht, hs] at h
    · simp [hp, ht] at h

theorem verify_eq_failed_of_type (K : Env) (this : private_traffic_selector_substructure_t)
    (h : this.ts_type ≠ K.TS_IPV4_ADDR_RANGE) : verify K this = status_t.FAILED := by
  unfold verify
  by_cases hp : this.start_port > this.end_port <;> simp [hp, h]

theorem verify_eq_failed_of_ports (K : Env) (this : private_traffic_selector_substructure_t)
    (h : this.start_port > this.end_port) : verify K this = status_t.FAILED := by
  simp [verify, h]

theorem chunk_of_length_four (c : chunk_t) (h : c.ptr.map List.length = some c.len)
    (h4 : c.len = 4) : ∃ a0 a1 a2 a3 : Nat, c = { ptr := some [a0, a1, a2, a3], len := 4 } := by
  obtain ⟨ptr, len⟩ := c
  simp only at h h4
  subst h4
  cases ptr with
  | none => simp at h
  | some bs =>
    simp only [Option.map_some', Option.some.injEq] at h
    rcases bs with _ | ⟨a0, _ | ⟨a1, _ | ⟨a2, _ | ⟨a3, _ | ⟨a4, t⟩⟩⟩⟩⟩ <;> simp at h
    exact ⟨a0, a1, a2, a3, rfl⟩

theorem decode_encode_fields (K : Env) (p sp ep a0 a1 a2 a3 b0 b1 b2 b3 : Nat)
    (hp : p < 256) (hsp : sp < 65536) (hep : ep < 65536) :
    decode K (encode
        { ts_type := K.TS_IPV4_ADDR_RANGE, ip_protocol_id := p, payload_length := 16,
          start_port := sp, end_port := ep,
          starting_address := { ptr := some [a0, a1, a2, a3], len := 4 },
          ending_address := { ptr := some [b0, b1, b2, b3], len := 4 } }
        traffic_selector_substructure_encodings) traffic_selector_substructure_encodings =
      Except.ok
        { ts_type := K.TS_IPV4_ADDR_RANGE, ip_protocol_id := p, payload_length := 16,
          start_port := sp, end_port := ep,
          starting_address := { ptr := some [a0, a1, a2, a3], len := 4 },
          ending_address := { ptr := some [b0, b1, b2, b3], len := 4 } } := by
  have ht := Nat.mod_eq_of_lt K.ipv4_u8
  have hp1 := Nat.mod_eq_of_lt hp
  have hs2 : sp / 256 % 256 * 256 + sp % 256 = sp := by omega
  have he2 : ep / 256 % 256 * 256 + ep % 256 = ep := by omega
  simp [decode, encode, traffic_selector_substructure_encodings, generate_rule, parse_rules,
    parse_rule, parse_integer, address_rules, network_order_value, member_t.read_integer,
    member_t.read_chunk, member_t.write_integer, member_t.write_chunk, chunk_t.bytes,
    traffic_selector_substructure_create, ht, hp1, hs2, he2]

theorem decode_encode_of_verified (K : Env) (this : private_traffic_selector_substructure_t)
    (hr : in_range this) (hv : verify K this = status_t.SUCCESS)
    (hl : this.payload_length = 16) :
    decode K (encode this traffic_selector_substructure_encodings)
      traffic_selector_substructure_encodings = Except.ok this := by
  obtain ⟨_, ht, hs, he⟩ := verify_success_imp K this hv
  obtain ⟨_, hp, _, hsp, hep, hsa, hea⟩ := hr
  obtain ⟨a0, a1, a2, a3, ha⟩ := chunk_of_length_four _ hsa hs
  obtain ⟨b0, b1, b2, b3, hb⟩ := chunk_of_length_four _ hea he
  obtain ⟨t, p, l, sp, ep, sa, ea⟩ := this
  simp only at ht hl ha hb hp hsp hep
  subst ht hl ha hb
  exact decode_encode_fields K p sp ep a0 a1 a2 a3 b0 b1 b2 b3 hp hsp hep

theorem set_append_last (l : List (Option (List Nat))) (x y : Option (List Nat)) :
    (l ++ [x]).set l.length y = l ++ [y] := by
  induction l with
  | nil => rfl
  | cons a t ih => simp [ih]

theorem read_at_length (l t : List (Option (List Nat))) (x : Option (List Nat)) (n : Nat)
    (hn : n = l.length) : heap_t.read { blocks := l ++ x :: t } n = x := by
  subst hn
  have e : (l ++ x :: t)[l.length]? = some x := by
    rw [List.getElem?_append_right (le_refl _)]
    simp
  unfold heap_t.read
  rw [e]
  rfl

theorem read_below_length (l t : List (Option (List Nat))) (n : Nat) (hn : n < l.length) :
    heap_t.read { blocks := l ++ t } n = heap_t.read { blocks := l } n := by
  simp [heap_t.read, List.getElem?_append_left hn]

theorem read_set_other (l : List (Option (List Nat))) (x : Option (List Nat)) (a n : Nat)
    (hn : a ≠ n) : heap_t.read { blocks := l.set a x } n = heap_t.read { blocks := l } n := by
  simp [heap_t.read, List.getElem?_set_ne hn]

theorem set_start_host_in_memory_eq (heap : heap_t) (obj : object_in_memory) (h : host_t) :
    set_start_host_in_memory (heap, obj) h =
      ((h.get_address_as_chunk_in_memory
          (match obj.starting_address.ptr with
            | none => heap
            | some a => heap.free a)).1,
        { obj with
          start_port := h.get_port
          starting_address :=
            (h.get_address_as_chunk_in_memory
              (match obj.starting_address.ptr with
                | none => heap
                | some a => heap.free a)).2
          payload_length := (8 + h.address.len + obj.ending_address.len) % 65536 }) := by
  unfold set_start_host_in_memory
  cases hp : obj.starting_address.ptr <;> cases hh : h.address.ptr <;>
    simp [hp, hh, get_port_mod, TRAFFIC_SELECTOR_HEADER_LENGTH, allocator_free_chunk_in_memory,
      host_t.get_address_as_chunk_in_memory]

theorem set_end_host_in_memory_eq (heap : heap_t) (obj : object_in_memory) (h : host_t) :
    set_end_host_in_memory (heap, obj) h =
      ((h.get_address_as_chunk_in_memory
          (match obj.ending_address.ptr with
            | none => heap
            | some a => heap.free a)).1,
        { obj with
          end_port := h.get_port
          ending_address :=
            (h.get_address_as_chunk_in_memory
              (match obj.ending_address.ptr with
                | none => heap
                | some a => heap.free a)).2
          payload_length := (8 + obj.starting_address.len + h.address.len) % 65536 }) := by
  unfold set_end_host_in_memory
  cases hp : obj.ending_address.ptr <;> cases hh : h.address.ptr <;>
    simp [hp, hh, get_port_mod, TRAFFIC_SELECTOR_HEADER_LENGTH, allocator_free_chunk_in_memory,
      host_t.get_address_as_chunk_in_memory]

theorem start_buffer_released (m : heap_t × object_in_memory) (h1 h2 : host_t) (a : Nat)
    (ha : (set_start_host_in_memory m h1).2.starting_address.ptr = some a) :
    (set_start_host_in_memory (set_start_host_in_memory m h1) h2).1.read a = none := by
  obtain ⟨heap, obj⟩ := m
  rw [set_start_host_in_memory_eq] at ha ⊢
  rw [set_start_host_in_memory_eq]
  cases hh : h1.address.ptr with
  | none => simp [host_t.get_address_as_chunk_in_memory, hh] at ha
  | some bs =>
    simp only [host_t.get_address_as_chunk_in_memory, hh, heap_t.alloc, Option.some.injEq] at ha
    subst ha
    cases hp : obj.starting_address.ptr <;> cases hk : h2.address.ptr <;>
      simp only [host_t.get_address_as_chunk_in_memory, heap_t.alloc, heap_t.free,
        set_append_last, hh, hp, hk, List.append_assoc, List.singleton_append] <;>
      exact read_at_length _ _ _ _ (by simp)

theorem start_no_leak (m : heap_t × object_in_memory) (h1 h2 : host_t) :
    (set_start_host_in_memory (set_start_host_in_memory m h1) h2).1.live_blocks =
      (set_start_host_in_memory m h2).1.live_blocks := by
  obtain ⟨heap, obj⟩ := m
  rw [set_start_host_in_memory_eq, set_start_host_in_memory_eq, set_start_host_in_memory_eq]
  cases hp : obj.starting_address.ptr <;> cases hh : h1.address.ptr <;>
    cases hk : h2.address.ptr <;>
    simp [host_t.get_address_as_chunk_in_memory, heap_t.alloc, heap_t.free,
      set_append_last, heap_t.live_blocks, List.filter_append, hp, hh, hk]

theorem start_buffer_installed (m : heap_t × object_in_memory) (h : host_t) :
    (set_start_host_in_memory m h).2.starting_address.value (set_start_host_in_memory m h).1
      = h.get_address_as_chunk := by
  obtain ⟨heap, obj⟩ := m
  rw [set_start_host_in_memory_eq]
  cases hp : obj.starting_address.ptr <;> cases hh : h.address.ptr <;>
    simp [host_t.get_address_as_chunk_in_memory, heap_t.alloc, heap_t.free,
      chunk_in_memory.value, host_t.get_address_as_chunk, hp, hh, read_at_length] <;>
    (rw [← hh])

theorem start_other_blocks_kept (m : heap_t × object_in_memory) (h : host_t) (a : Nat)
    (ha : a < m.1.blocks.length) (hne : m.2.starting_address.ptr ≠ some a) :
    (set_start_host_in_memory m h).1.read a = m.1.read a := by
  obtain ⟨heap, obj⟩ := m
  simp only at ha hne
  rw [set_start_host_in_memory_eq]
  cases hp : obj.starting_address.ptr with
  | none =>
    cases hh : h.address.ptr with
    | none => simp [host_t.get_address_as_chunk_in_memory, hh]
    | some bs =>
      simp only [host_t.get_address_as_chunk_in_memory, hh, heap_t.alloc]
      exact read_below_length _ _ _ ha
  | some p =>
    have hpa : p ≠ a := fun e => hne (by rw [hp, e])
    cases hh : h.address.ptr with
    | none =>
      simp only [host_t.get_address_as_chunk_in_memory, hh, heap_t.free]
      exact read_set_other _ _ _ _ hpa
    | some bs =>
      simp only [host_t.get_address_as_chunk_in_memory, hh, heap_t.alloc, heap_t.free]
      rw [read_below_length _ _ _ (by simpa using ha)]
      exact read_set_other _ _ _ _ hpa

theorem start_refines (m : heap_t × object_in_memory) (h : host_t)
    (ho : owns_its_buffers m) :
    object_in_memory.value (set_start_host_in_memory m h) =
      set_start_host (object_in_memory.value m) h := by
  have hi := start_buffer_installed m h
  have he : (set_start_host_in_memory m h).2.ending_address.value
      (set_start_host_in_memory m h).1 = m.2.ending_address.value m.1 := by
    have e2 : (set_start_host_in_memory m h).2.ending_address = m.2.ending_address := by
      obtain ⟨heap, obj⟩ := m
      rw [set_start_host_in_memory_eq]
    rw [e2]
    unfold chunk_in_memory.value
    cases hp : m.2.ending_address.ptr with
    | none => rfl
    | some e =>
      have := start_other_blocks_kept m h e (ho.2.1 e hp)
        (fun hs => ho.2.2 e hs hp)
      simp [this]
  rw [set_start_host_eq]
  obtain ⟨heap, obj⟩ := m
  simp only [object_in_memory.value] at hi he ⊢
  rw [hi, he]
  rw [set_start_host_in_memory_eq]
  simp [chunk_in_memory.value, host_t.get_address_as_chunk]

theorem start_keeps_ownership (m : heap_t × object_in_memory) (h : host_t)
    (ho : owns_its_buffers m) : owns_its_buffers (set_start_host_in_memory m h) := by
  obtain ⟨heap, obj⟩ := m
  obtain ⟨_, h2, _⟩ := ho
  simp only at h2
  have hlen : ∀ p : Option Nat,
      (match p with
        | none => heap
        | some a => heap.free a).blocks.length = heap.blocks.length := by
    intro p
    cases p <;> simp [heap_t.free]
  rw [set_start_host_in_memory_eq]
  cases hh : h.address.ptr with
  | none =>
    simp only [owns_its_buffers, host_t.get_address_as_chunk_in_memory, hh]
    refine ⟨fun a ha => by simp at ha, fun a ha => ?_, fun a ha => by simp at ha⟩
    rw [hlen]
    exact h2 a ha
  | some bs =>
    simp only [owns_its_buffers, host_t.get_address_as_chunk_in_memory, hh, heap_t.alloc]
    refine ⟨fun a ha => ?_, fun a ha => ?_, fun a ha hc => ?_⟩
    · simp only [Option.some.injEq] at ha
      subst ha
      simp
    · have := h2 a ha
      simp only [List.length_append, List.length_singleton, hlen]
      omega
    · simp only [Option.some.injEq] at ha
      have := h2 a hc
      rw [hlen] at ha
      omega

theorem end_buffer_released (m : heap_t × object_in_memory) (h1 h2 : host_t) (a : Nat)
    (ha : (set_end_host_in_memory m h1).2.ending_address.ptr = some a) :
    (set_end_host_in_memory (set_end_host_in_memory m h1) h2).1.read a = none := by
  obtain ⟨heap, obj⟩ := m
  rw [set_end_host_in_memory_eq] at ha ⊢
  rw [set_end_host_in_memory_eq]
  cases hh : h1.address.ptr with
  | none => simp [host_t.get_address_as_chunk_in_memory, hh] at ha
  | some bs =>
    simp only [host_t.get_address_as_chunk_in_memory, hh, heap_t.alloc, Option.some.injEq] at ha
    subst ha
    cases hp : obj.ending_address.ptr <;> cases hk : h2.address.ptr <;>
      simp only [host_t.get_address_as_chunk_in_memory, heap_t.alloc, heap_t.free,
        set_append_last, hh, hp, hk, List.append_assoc, List.singleton_append] <;>
      exact read_at_length _ _ _ _ (by simp)

theorem end_no_leak (m : heap_t × object_in_memory) (h1 h2 : host_t) :
    (set_end_host_in_memory (set_end_host_in_memory m h1) h2).1.live_blocks =
      (set_end_host_in_memory m h2).1.live_blocks := by
  obtain ⟨heap, obj⟩ := m
  rw [set_end_host_in_memory_eq, set_end_host_in_memory_eq, set_end_host_in_memory_eq]
  cases hp : obj.ending_address.ptr <;> cases hh : h1.address.ptr <;>
    cases hk : h2.address.ptr <;>
    simp [host_t.get_address_as_chunk_in_memory, heap_t.alloc, heap_t.free,
      set_append_last, heap_t.live_blocks, List.filter_append, hp, hh, hk]

theorem end_buffer_installed (m : heap_t × object_in_memory) (h : host_t) :
    (set_end_host_in_memory m h).2.ending_address.value (set_end_host_in_memory m h).1
      = h.get_address_as_chunk := by
  obtain ⟨heap, obj⟩ := m
  rw [set_end_host_in_memory_eq]
  cases hp : obj.ending_address.ptr <;> cases hh : h.address.ptr <;>
    simp [host_t.get_address_as_chunk_in_memory, heap_t.alloc, heap_t.free,
      chunk_in_memory.value, host_t.get_address_as_chunk, hp, hh, read_at_length] <;>
    (rw [← hh])

theorem end_other_blocks_kept (m : heap_t × object_in_memory) (h : host_t) (a : Nat)
    (ha : a < m.1.blocks.length) (hne : m.2.ending_address.ptr ≠ some a) :
    (set_end_host_in_memory m h).1.read a = m.1.read a := by
  obtain ⟨heap, obj⟩ := m
  simp only at ha hne
  rw [set_end_host_in_memory_eq]
  cases hp : obj.ending_address.ptr with
  | none =>
    cases hh : h.address.ptr with
    | none => simp [host_t.get_address_as_chunk_in_memory, hh]
    | some bs =>
      simp only [host_t.get_address_as_chunk_in_memory, hh, heap_t.alloc]
      exact read_below_length _ _ _ ha
  | some p =>
    have hpa : p ≠ a := fun e => hne (by rw [hp, e])
    cases hh : h.address.ptr with
    | none =>
      simp only [host_t.get_address_as_chunk_in_memory, hh, heap_t.free]
      exact read_set_other _ _ _ _ hpa
    | some bs =>
      simp only [host_t.get_address_as_chunk_in_memory, hh, heap_t.alloc, heap_t.free]
      rw [read_below_length _ _ _ (by simpa using ha)]
      exact read_set_other _ _ _ _ hpa

theorem end_refines (m : heap_t × object_in_memory) (h : host_t)
    (ho : owns_its_buffers m) :
    object_in_memory.value (set_end_host_in_memory m h) =
      set_end_host (object_in_memory.value m) h := by
  have hi := end_buffer_installed m h
  have he : (set_end_host_in_memory m h).2.starting_address.value
      (set_end_host_in_memory m h).1 = m.2.starting_address.value m.1 := by
    have e2 : (set_end_host_in_memory m h).2.starting_address = m.2.starting_address := by
      obtain ⟨heap, obj⟩ := m
      rw [set_end_host_in_memory_eq]
    rw [e2]
    unfold chunk_in_memory.value
    cases hp : m.2.starting_address.ptr with
    | none => rfl
    | some e =>
      have := end_other_blocks_kept m h e (ho.1 e hp)
        (fun hs => ho.2.2 e hp hs)
      simp [this]
  rw [set_end_host_eq]
  obtain ⟨heap, obj⟩ := m
  simp only [object_in_memory.value] at hi he ⊢
  rw [hi, he]
  rw [set_end_host_in_memory_eq]
  simp [chunk_in_memory.value, host_t.get_address_as_chunk]

theorem end_keeps_ownership (m : heap_t × object_in_memory) (h : host_t)
    (ho : owns_its_buffers m) : owns_its_buffers (set_end_host_in_memory m h) := by
  obtain ⟨heap, obj⟩ := m
  obtain ⟨h1, _, _⟩ := ho
  simp only at h1
  have hlen : ∀ p : Option Nat,
      (match p with
        | none => heap
        | some a => heap.free a).blocks.length = heap.blocks.length := by
    intro p
    cases p <;> simp [heap_t.free]
  rw [set_end_host_in_memory_eq]
  cases hh : h.address.ptr with
  | none =>
    simp only [owns_its_buffers, host_t.get_address_as_chunk_in_memory, hh]
    refine ⟨fun a ha => ?_, fun a ha => by simp at ha, fun a _ => by simp⟩
    rw [hlen]
    exact h1 a ha
  | some bs =>
    simp only [owns_its_buffers, host_t.get_address_as_chunk_in_memory, hh, heap_t.alloc]
    refine ⟨fun a ha => ?_, fun a ha => ?_, fun a ha hc => ?_⟩
    · have := h1 a ha
      simp only [List.length_append, List.length_singleton, hlen]
      omega
    · simp only [Option.some.injEq] at ha
      subst ha
      simp
    · simp only [Option.some.injEq] at hc
      have := h1 a ha
      rw [hlen] at hc
      omega

theorem invariant_create (K : Env) (b : Bool) :
    instance_invariant (traffic_selector_substructure_create K b) := by
  refine ⟨?_, ?_, ?_, ?_, ?_, ?_, length_consistent_create K b⟩ <;>
    simp [traffic_selector_substructure_create, CHUNK_INITIALIZER, chunk_t.well_formed]
  exact Nat.mod_lt _ (by decide)

theorem invariant_apply (this : private_traffic_selector_substructure_t) (c : setter_call)
    (h : instance_invariant this) (hc : c.well_formed) : instance_invariant (c.apply this) := by
  obtain ⟨h1, h2, h3, h4, h5, h6, h7⟩ := h
  refine ⟨?_, ?_, ?_, ?_, ?_, ?_, length_consistent_apply this c h7⟩ <;>
    cases c <;>
    simp [setter_call.apply, setter_call.well_formed, set_start_host_eq, set_end_host_eq,
      set_ts_type, set_protocol_id, set_next_type, host_t.get_port, Nat.mod_lt] at hc ⊢ <;>
    assumption

theorem parse_rules_cons_ok (K : Env) (r : encoding_rule_t) (rest : List encoding_rule_t)
    (st st2 : parse_state) (h : parse_rules K (r :: rest) st = Except.ok st2) :
    ∃ st1, parse_rule K (address_rules (r :: rest)) r st = Except.ok st1 ∧
      parse_rules K rest st1 = Except.ok st2 := by
  unfold parse_rules at h
  cases hr : parse_rule K (address_rules (r :: rest)) r st with
  | error e => simp [hr] at h
  | ok st1 => exact ⟨st1, rfl, by simpa [hr] using h⟩

theorem parse_integer_ok (width : Nat) (m : member_t) (st st1 : parse_state)
    (h : parse_integer width m st = Except.ok st1) :
    width ≤ st.input.length ∧ st1.input = st.input.drop width ∧
      st1.consumed = st.consumed + width ∧
      st1.out = m.write_integer st.out (network_order_value (st.input.take width)) := by
  unfold parse_integer at h
  by_cases hl : st.input.length < width
  · simp [hl] at h
  · simp only [hl, if_false, Except.ok.injEq] at h
    subst h
    exact ⟨Nat.le_of_not_lt hl, rfl, rfl, rfl⟩

theorem parse_address_ok (K : Env) (n : Nat) (m : member_t) (st st1 : parse_state)
    (h : parse_rule K n { type := encoding_type_t.ADDRESS, offset := m } st = Except.ok st1) :
    ∃ w, w ≤ st.input.length ∧ st1.input = st.input.drop w ∧
      st1.consumed = st.consumed + w ∧
      st1.out = m.write_chunk st.out { ptr := some (st.input.take w), len := w } := by
  simp only [parse_rule] at h
  generalize (if st.out.ts_type = K.TS_IPV4_ADDR_RANGE then 4
    else (st.out.payload_length - st.consumed) / n) = w at h
  by_cases c1 : st.consumed + w > st.out.payload_length
  · simp [c1] at h
  · by_cases c2 : st.input.length < w
    · simp [c1, c2] at h
    · simp only [c1, c2, if_false, Except.ok.injEq] at h
      subst h
      exact ⟨w, Nat.le_of_not_lt c2, rfl, rfl, rfl⟩

theorem network_order_value_one (l : List Nat) (hb : ∀ b ∈ l, b < 256) :
    network_order_value (l.take 1) < 256 := by
  cases l with
  | nil => simp [network_order_value]
  | cons a t => simpa [network_order_value] using hb a (by simp)

theorem network_order_value_two (l : List Nat) (hb : ∀ b ∈ l, b < 256) :
    network_order_value (l.take 2) < 65536 := by
  rcases l with _ | ⟨a, _ | ⟨b, t⟩⟩
  · simp [network_order_value]
  · have := hb a (by simp)
    simp [network_order_value]
    omega
  · have := hb a (by simp)
    have := hb b (by simp)
    simp [network_order_value]
    omega

theorem well_formed_take (l : List Nat) (w : Nat) (h : w ≤ l.length) :
    chunk_t.well_formed { ptr := some (l.take w), len := w } := by
  simp [chunk_t.well_formed, h]

theorem invariant_decode (K : Env) (input : List Nat)
    (this : private_traffic_selector_substructure_t) (hb : ∀ b ∈ input, b < 256)
    (hd : decode K input traffic_selector_substructure_encodings = Except.ok this) :
    instance_invariant this := by
  unfold decode at hd
  cases hp : parse_rules K traffic_selector_substructure_encodings
      { input := input, consumed := 0, out := traffic_selector_substructure_create K false } with
  | error e => simp [hp] at hd
  | ok stf =>
    simp only [hp] at hd
    by_cases hlen : stf.out.payload_length = stf.consumed
    swap
    · simp [hlen] at hd
    simp only [hlen, ne_eq, not_true_eq_false, if_false, Except.ok.injEq] at hd
    unfold traffic_selector_substructure_encodings at hp
    obtain ⟨st1, h1, hp⟩ := parse_rules_cons_ok K _ _ _ _ hp
    obtain ⟨st2, h2, hp⟩ := parse_rules_cons_ok K _ _ _ _ hp
    obtain ⟨st3, h3, hp⟩ := parse_rules_cons_ok K _ _ _ _ hp
    obtain ⟨st4, h4, hp⟩ := parse_rules_cons_ok K _ _ _ _ hp
    obtain ⟨st5, h5, hp⟩ := parse_rules_cons_ok K _ _ _ _ hp
    obtain ⟨st6, h6, hp⟩ := parse_rules_cons_ok K _ _ _ _ hp
    obtain ⟨st7, h7, hp⟩ := parse_rules_cons_ok K _ _ _ _ hp
    simp only [parse_rules, Except.ok.injEq] at hp
    subst hp
    obtain ⟨_, i1, c1, o1⟩ := parse_integer_ok 1 _ _ _ h1
    obtain ⟨_, i2, c2, o2⟩ := parse_integer_ok 1 _ _ _ h2
    obtain ⟨_, i3, c3, o3⟩ := parse_integer_ok 2 _ _ _ h3
    obtain ⟨_, i4, c4, o4⟩ := parse_integer_ok 2 _ _ _ h4
    obtain ⟨_, i5, c5, o5⟩ := parse_integer_ok 2 _ _ _ h5
    obtain ⟨w1, l6, i6, c6, o6⟩ := parse_address_ok K _ _ _ _ h6
    obtain ⟨w2, l7, i7, c7, o7⟩ := parse_address_ok K _ _ _ _ h7
    have b0 : ∀ b ∈ input, b < 256 := hb
    have b1 : ∀ b ∈ st1.input, b < 256 := by
      rw [i1]; exact fun b hm => b0 b (List.mem_of_mem_drop hm)
    have b2 : ∀ b ∈ st2.input, b < 256 := by
      rw [i2]; exact fun b hm => b1 b (List.mem_of_mem_drop hm)
    have b3 : ∀ b ∈ st3.input, b < 256 := by
      rw [i3]; exact fun b hm => b2 b (List.mem_of_mem_drop hm)
    have b4 : ∀ b ∈ st4.input, b < 256 := by
      rw [i4]; exact fun b hm => b3 b (List.mem_of_mem_drop hm)
    have v1 := network_order_value_one _ b0
    have v2 := network_order_value_one _ b1
    have v3 := network_order_value_two _ b2
    have v4 := network_order_value_two _ b3
    have v5 := network_order_value_two _ b4
    have k1 := well_formed_take _ _ l6
    have k2 := well_formed_take _ _ l7
    have hc : st7.consumed = 8 + w1 + w2 := by
      rw [c7, c6, c5, c4, c3, c2, c1]
    have ho : this =
        { ts_type := network_order_value (List.take 1 input)
          ip_protocol_id := network_order_value (List.take 1 st1.input)
          payload_length := network_order_value (List.take 2 st2.input)
          start_port := network_order_value (List.take 2 st3.input)
          end_port := network_order_value (List.take 2 st4.input)
          starting_address := { ptr := some (List.take w1 st5.input), len := w1 }
          ending_address := { ptr := some (List.take w2 st6.input), len := w2 } } := by
      rw [← hd, o7, o6, o5, o4, o3, o2, o1]
      rfl
    have hpl : network_order_value (List.take 2 st2.input) = 8 + w1 + w2 := by
      rw [← hc, ← hlen, o7, o6, o5, o4, o3, o2, o1]
      rfl
    subst ho
    refine ⟨v1, v2, v4, v5, k1, k2, ?_⟩
    simp only [length_consistent]
    rw [hpl] at v3 ⊢
    exact (Nat.mod_eq_of_lt v3).symm

theorem invariant_of_reachable (K : Env) (this : private_traffic_selector_substructure_t)
    (h : reachable K this) : instance_invariant this := by
  induction h with
  | create b => exact invariant_create K b
  | decode input this hb hd => exact invariant_decode K input this hb hd
  | setter this c _ hc ih => exact invariant_apply this c ih hc

theorem in_range_of_invariant (K : Env) (this : private_traffic_selector_substructure_t)
    (h : instance_invariant this) (hv : verify K this = status_t.SUCCESS) :
    in_range this ∧ this.payload_length = 16 := by
  obtain ⟨h1, h2, h3, h4, h5, h6, h7⟩ := h
  obtain ⟨_, _, hs, he⟩ := verify_success_imp K this hv
  unfold length_consistent at h7
  rw [hs, he] at h7
  have wf : ∀ c : chunk_t, c.well_formed → c.len = 4 →
      c.ptr.map List.length = some c.len := by
    intro c hc h4
    unfold chunk_t.well_formed at hc
    cases hp : c.ptr with
    | none => rw [hp] at hc; simp only at hc; omega
    | some bs => rw [hp] at hc; simpa using hc
  refine ⟨⟨h1, h2, ?_, h3, h4, wf _ h5 hs, wf _ h6 he⟩, h7⟩
  rw [h7]
  decide

/-! ## Validation -/

/-- C1. For every payload state, verify returns SUCCESS if and only if
start_port <= end_port, ts_type = TS_IPV4_ADDR_RANGE, starting_address.len = 4
and ending_address.len = 4; in every other state it returns FAILED. -/
theorem verify_success_iff (K : Env) (this : private_traffic_selector_substructure_t) :
    (verify K this = status_t.SUCCESS ↔
      (this.start_port ≤ this.end_port ∧ this.ts_type = K.TS_IPV4_ADDR_RANGE ∧
        this.starting_address.len = 4 ∧ this.ending_address.len = 4)) ∧
    (¬ (this.start_port ≤ this.end_port ∧ this.ts_type = K.TS_IPV4_ADDR_RANGE ∧
        this.starting_address.len = 4 ∧ this.ending_address.len = 4) →
      verify K this = status_t.FAILED) := by
  unfold verify
  by_cases hp : this.start_port > this.end_port
  · have hn : ¬ this.start_port ≤ this.end_port := Nat.not_le.mpr hp
    simp [hp, hn]
  · have hle : this.start_port ≤ this.end_port := Nat.le_of_not_gt hp
    by_cases ht : this.ts_type = K.TS_IPV4_ADDR_RANGE
    · by_cases hs : this.starting_address.len = 4 <;>
        by_cases he : this.ending_address.len = 4 <;> simp [hp, hle, ht, hs, he]
    · simp [hp, ht]

/-- C1, at concrete states: the IPv4 selector type (7) with ports 1024 <= 65535
and two 4-byte addresses passes; the same state with a 3-byte ending address
fails. -/
theorem verify_success_iff_witness :
    verify ikev2
        { ts_type := 7, ip_protocol_id := 6, payload_length := 16, start_port := 1024,
          end_port := 65535, starting_address := { ptr := some [10, 0, 0, 1], len := 4 },
          ending_address := { ptr := some [10, 0, 0, 255], len := 4 } } = status_t.SUCCESS ∧
    verify ikev2
        { ts_type := 7, ip_protocol_id := 6, payload_length := 15, start_port := 1024,
          end_port := 65535, starting_address := { ptr := some [10, 0, 0, 1], len := 4 },
          ending_address := { ptr := some [10, 0, 0], len := 3 } } = status_t.FAILED :=
  ⟨(verify_success_iff ikev2 _).1.2 (by decide), (verify_success_iff ikev2 _).2 (by decide)⟩

/-- C2. For every payload state with start_port > end_port, verify fails,
whatever the selector type, the protocol id and the contents or lengths of the
two address buffers. -/
theorem verify_fails_of_inverted_ports (K : Env)
    (this : private_traffic_selector_substructure_t)
    (h : this.start_port > this.end_port) : verify K this = status_t.FAILED := by
  simp [verify, h]

/-- C2, at a concrete state: two 4-byte addresses with the IPv4 selector type
and ports 2 > 1. -/
theorem verify_fails_of_inverted_ports_witness :
    (2 : Nat) > 1 ∧
    verify ikev2
        { ts_type := ikev2.TS_IPV4_ADDR_RANGE, ip_protocol_id := 17, payload_length := 16,
          start_port := 2, end_port := 1,
          starting_address := { ptr := some [192, 168, 0, 1], len := 4 },
          ending_address := { ptr := some [192, 168, 0, 9], len := 4 } } = status_t.FAILED :=
  ⟨by decide, verify_fails_of_inverted_ports ikev2 _ (by decide)⟩

/-- C3. For every payload state whose ts_type is TS_IPV6_ADDR_RANGE or any
value other than TS_IPV4_ADDR_RANGE, verify fails, independent of the port
values and of the address buffers. -/
theorem verify_fails_of_unsupported_type (K : Env)
    (this : private_traffic_selector_substructure_t)
    (h : this.ts_type = K.TS_IPV6_ADDR_RANGE ∨ this.ts_type ≠ K.TS_IPV4_ADDR_RANGE) :
    verify K this = status_t.FAILED := by
  have ht : this.ts_type ≠ K.TS_IPV4_ADDR_RANGE := by
    rcases h with h | h
    · rw [h]; exact fun e => K.distinct e.symm
    · exact h
  unfold verify
  by_cases hp : this.start_port > this.end_port <;> simp [hp, ht]

/-- C3, at a concrete state: the IPv6 selector type with two 16-byte addresses
and ports 0 <= 65535. -/
theorem verify_fails_of_unsupported_type_witness :
    verify ikev2
        { ts_type := ikev2.TS_IPV6_ADDR_RANGE, ip_protocol_id := 0, payload_length := 40,
          start_port := 0, end_port := 65535,
          starting_address := { ptr := some (List.replicate 16 0), len := 16 },
          ending_address := { ptr := some (List.replicate 16 255), len := 16 } }
      = status_t.FAILED :=
  verify_fails_of_unsupported_type ikev2 _ (Or.inl (by decide))

/-! ## Wire length -/

/-- C4, as stated, fails: after set_start_host with a host whose address chunk
is 65528 bytes long on a fresh instance, get_length returns 0, while
8 + starting_address.len + ending_address.len is 65536. -/
theorem get_length_sum_counterexample :
    get_length (run_calls (traffic_selector_substructure_create ikev2 true)
        [setter_call.set_start_host (host_of_length ikev2 65528 500)]) = 0 ∧
    8 + (run_calls (traffic_selector_substructure_create ikev2 true)
          [setter_call.set_start_host (host_of_length ikev2 65528 500)]).starting_address.len
      + (run_calls (traffic_selector_substructure_create ikev2 true)
          [setter_call.set_start_host (host_of_length ikev2 65528 500)]).ending_address.len
      = 65536 ∧
    ¬ (∀ (K : Env) (is_initiator : Bool) (calls : List setter_call),
        get_length (run_calls (traffic_selector_substructure_create K is_initiator) calls) =
          8 + (run_calls (traffic_selector_substructure_create K is_initiator)
                calls).starting_address.len
            + (run_calls (traffic_selector_substructure_create K is_initiator)
                calls).ending_address.len) := by
  have e : run_calls (traffic_selector_substructure_create ikev2 true)
      [setter_call.set_start_host (host_of_length ikev2 65528 500)] =
      { ts_type := 7, ip_protocol_id := 0, payload_length := 0, start_port := 500,
        end_port := 0,
        starting_address := { ptr := some (List.replicate 65528 0), len := 65528 },
        ending_address := CHUNK_INITIALIZER } := by
    rfl
  refine ⟨?_, ?_, ?_⟩
  · rw [e]; rfl
  · rw [e]; rfl
  · intro h
    have h1 := h ikev2 true [setter_call.set_start_host (host_of_length ikev2 65528 500)]
    rw [e] at h1
    simp [get_length, CHUNK_INITIALIZER] at h1

/-- C4, amended. For every finite sequence of setter calls (set_start_host,
set_end_host, set_ts_type, set_protocol_id, set_next_type, in any order and
with any host arguments) applied to a freshly created instance, get_length
returns (8 + starting_address.len + ending_address.len) mod 2^16, which is
8 + starting_address.len + ending_address.len whenever the two address lengths
sum to at most 65527. -/
theorem get_length_after_setters (K : Env) (is_initiator : Bool) (calls : List setter_call) :
    get_length (run_calls (traffic_selector_substructure_create K is_initiator) calls) =
        (8 + (run_calls (traffic_selector_substructure_create K is_initiator)
                calls).starting_address.len
           + (run_calls (traffic_selector_substructure_create K is_initiator)
                calls).ending_address.len) % 65536 ∧
    ((run_calls (traffic_selector_substructure_create K is_initiator)
          calls).starting_address.len
        + (run_calls (traffic_selector_substructure_create K is_initiator)
          calls).ending_address.len ≤ 65527 →
      get_length (run_calls (traffic_selector_substructure_create K is_initiator) calls) =
        8 + (run_calls (traffic_selector_substructure_create K is_initiator)
                calls).starting_address.len
          + (run_calls (traffic_selector_substructure_create K is_initiator)
                calls).ending_address.len) := by
  have hc := length_consistent_run calls _ (length_consistent_create K is_initiator)
  unfold length_consistent at hc
  refine ⟨hc, fun hle => ?_⟩
  unfold get_length
  rw [hc]
  apply Nat.mod_eq_of_lt
  omega

/-- C4, amended, at a concrete sequence: five setter calls with 4-byte hosts
give get_length 16 = 8 + 4 + 4. -/
theorem get_length_after_setters_witness :
    get_length (run_calls (traffic_selector_substructure_create ikev2 false)
        [setter_call.set_end_host (host_ipv4 ikev2 10 0 0 255 65535),
         setter_call.set_ts_type 8,
         setter_call.set_next_type 33,
         setter_call.set_start_host (host_ipv4 ikev2 10 0 0 1 1024),
         setter_call.set_protocol_id 6]) = 16 ∧
    get_length (run_calls (traffic_selector_substructure_create ikev2 false)
        [setter_call.set_end_host (host_ipv4 ikev2 10 0 0 255 65535),
         setter_call.set_ts_type 8,
         setter_call.set_next_type 33,
         setter_call.set_start_host (host_ipv4 ikev2 10 0 0 1 1024),
         setter_call.set_protocol_id 6]) =
      8 + (run_calls (traffic_selector_substructure_create ikev2 false)
        [setter_call.set_end_host (host_ipv4 ikev2 10 0 0 255 65535),
         setter_call.set_ts_type 8,
         setter_call.set_next_type 33,
         setter_call.set_start_host (host_ipv4 ikev2 10 0 0 1 1024),
         setter_call.set_protocol_id 6]).starting_address.len
        + (run_calls (traffic_selector_substructure_create ikev2 false)
        [setter_call.set_end_host (host_ipv4 ikev2 10 0 0 255 65535),
         setter_call.set_ts_type 8,
         setter_call.set_next_type 33,
         setter_call.set_start_host (host_ipv4 ikev2 10 0 0 1 1024),
         setter_call.set_protocol_id 6]).ending_address.len :=
  ⟨by decide, (get_length_after_setters ikev2 false _).2 (by decide)⟩

/-! ## Construction -/

/-- C5. For either value of is_initiator, traffic_selector_substructure_create
returns an instance with ts_type = TS_IPV4_ADDR_RANGE, ip_protocol_id = 0,
start_port = end_port = 0, both address buffers empty (length 0) and
get_length = 8; verify on this instance fails, and it fails on the address
lengths: the ports are in order, the selector type is the supported one, and
the same instance with two 4-byte address buffers passes. -/
theorem create_default (K : Env) (is_initiator : Bool) (a b : List Nat) :
    (traffic_selector_substructure_create K is_initiator).ts_type = K.TS_IPV4_ADDR_RANGE ∧
    (traffic_selector_substructure_create K is_initiator).ip_protocol_id = 0 ∧
    (traffic_selector_substructure_create K is_initiator).start_port = 0 ∧
    (traffic_selector_substructure_create K is_initiator).end_port = 0 ∧
    (traffic_selector_substructure_create K is_initiator).starting_address
      = CHUNK_INITIALIZER ∧
    (traffic_selector_substructure_create K is_initiator).ending_address
      = CHUNK_INITIALIZER ∧
    (traffic_selector_substructure_create K is_initiator).starting_address.len = 0 ∧
    (traffic_selector_substructure_create K is_initiator).ending_address.len = 0 ∧
    get_length (traffic_selector_substructure_create K is_initiator) = 8 ∧
    verify K (traffic_selector_substructure_create K is_initiator) = status_t.FAILED ∧
    ¬ ((traffic_selector_substructure_create K is_initiator).start_port >
        (traffic_selector_substructure_create K is_initiator).end_port) ∧
    (traffic_selector_substructure_create K is_initiator).starting_address.len ≠ 4 ∧
    (traffic_selector_substructure_create K is_initiator).ending_address.len ≠ 4 ∧
    verify K
      { traffic_selector_substructure_create K is_initiator with
        starting_address := { ptr := some a, len := 4 }
        ending_address := { ptr := some b, len := 4 } } = status_t.SUCCESS := by
  have ht := create_ts_type K is_initiator
  refine ⟨ht, rfl, rfl, rfl, rfl, rfl, rfl, rfl, rfl, ?_, ?_, ?_, ?_, ?_⟩
  · apply verify_eq_failed_of_len
    simp [traffic_selector_substructure_create, CHUNK_INITIALIZER]
  · simp [traffic_selector_substructure_create]
  · simp [traffic_selector_substructure_create, CHUNK_INITIALIZER]
  · simp [traffic_selector_substructure_create, CHUNK_INITIALIZER]
  · apply verify_eq_success <;>
      simp [traffic_selector_substructure_create, Nat.mod_eq_of_lt K.ipv4_u8]

/-- C6. For every pair of hosts h1, h2 whose address buffers are 4 bytes long
and with port(h1) <= port(h2), and every protocol id p, the instance obtained
from create by set_protocol_id(p), set_start_host(h1), set_end_host(h2), the
hosts set in either order, passes verify and has get_length = 16. -/
theorem construct_ipv4_selector (K : Env) (is_initiator : Bool) (h1 h2 : host_t) (p : Nat)
    (hl1 : h1.get_address_as_chunk.len = 4) (hl2 : h2.get_address_as_chunk.len = 4)
    (hport : h1.get_port ≤ h2.get_port) :
    verify K (set_end_host (set_start_host
        (set_protocol_id (traffic_selector_substructure_create K is_initiator) p) h1) h2)
      = status_t.SUCCESS ∧
    get_length (set_end_host (set_start_host
        (set_protocol_id (traffic_selector_substructure_create K is_initiator) p) h1) h2)
      = 16 ∧
    verify K (set_start_host (set_end_host
        (set_protocol_id (traffic_selector_substructure_create K is_initiator) p) h2) h1)
      = status_t.SUCCESS ∧
    get_length (set_start_host (set_end_host
        (set_protocol_id (traffic_selector_substructure_create K is_initiator) p) h2) h1)
      = 16 := by
  have ht := Nat.mod_eq_of_lt K.ipv4_u8
  refine ⟨?_, ?_, ?_, ?_⟩
  · apply verify_eq_success <;>
      simp [set_end_host_eq, set_start_host_eq, set_protocol_id,
        traffic_selector_substructure_create, ht, hl1, hl2, hport]
  · simp [get_length, set_end_host_eq, set_start_host_eq, hl1, hl2]
  · apply verify_eq_success <;>
      simp [set_end_host_eq, set_start_host_eq, set_protocol_id,
        traffic_selector_substructure_create, ht, hl1, hl2, hport]
  · simp [get_length, set_end_host_eq, set_start_host_eq, hl1, hl2]

/-- C6, at the input p = 6, h1 = 10.0.0.1 port 1024, h2 = 10.0.0.255 port
65535: the constructed instance is the one with these fields and length 16,
and it passes verify, with the hosts set in either order. -/
theorem construct_ipv4_selector_witness :
    set_end_host (set_start_host
        (set_protocol_id (traffic_selector_substructure_create ikev2 true) 6)
        (host_ipv4 ikev2 10 0 0 1 1024)) (host_ipv4 ikev2 10 0 0 255 65535) =
      { ts_type := 7, ip_protocol_id := 6, payload_length := 16, start_port := 1024,
        end_port := 65535, starting_address := { ptr := some [10, 0, 0, 1], len := 4 },
        ending_address := { ptr := some [10, 0, 0, 255], len := 4 } } ∧
    (verify ikev2 (set_end_host (set_start_host
        (set_protocol_id (traffic_selector_substructure_create ikev2 true) 6)
        (host_ipv4 ikev2 10 0 0 1 1024)) (host_ipv4 ikev2 10 0 0 255 65535))
      = status_t.SUCCESS ∧
    get_length (set_end_host (set_start_host
        (set_protocol_id (traffic_selector_substructure_create ikev2 true) 6)
        (host_ipv4 ikev2 10 0 0 1 1024)) (host_ipv4 ikev2 10 0 0 255 65535))
      = 16 ∧
    verify ikev2 (set_start_host (set_end_host
        (set_protocol_id (traffic_selector_substructure_create ikev2 true) 6)
        (host_ipv4 ikev2 10 0 0 255 65535)) (host_ipv4 ikev2 10 0 0 1 1024))
      = status_t.SUCCESS ∧
    get_length (set_start_host (set_end_host
        (set_protocol_id (traffic_selector_substructure_create ikev2 true) 6)
        (host_ipv4 ikev2 10 0 0 255 65535)) (host_ipv4 ikev2 10 0 0 1 1024))
      = 16) :=
  ⟨by decide,
    construct_ipv4_selector ikev2 true (host_ipv4 ikev2 10 0 0 1 1024)
      (host_ipv4 ikev2 10 0 0 255 65535) 6 (by decide) (by decide) (by decide)⟩

/-! ## Host setters and getters -/

/-- C7. For every state and host h, set_start_host(h) sets start_port to the
port of h and starting_address to the raw address bytes of h, recomputes
payload_length from the two address lengths, and leaves ts_type,
ip_protocol_id, end_port and ending_address unchanged; symmetrically
set_end_host(h) changes only end_port, ending_address and payload_length. -/
theorem host_setters_effect_and_frame (this : private_traffic_selector_substructure_t)
    (h : host_t) :
    ((set_start_host this h).start_port = h.get_port ∧
      (set_start_host this h).starting_address = h.get_address_as_chunk ∧
      (set_start_host this h).payload_length =
        (TRAFFIC_SELECTOR_HEADER_LENGTH + (set_start_host this h).starting_address.len
          + (set_start_host this h).ending_address.len) % 65536 ∧
      (set_start_host this h).ts_type = this.ts_type ∧
      (set_start_host this h).ip_protocol_id = this.ip_protocol_id ∧
      (set_start_host this h).end_port = this.end_port ∧
      (set_start_host this h).ending_address = this.ending_address) ∧
    ((set_end_host this h).end_port = h.get_port ∧
      (set_end_host this h).ending_address = h.get_address_as_chunk ∧
      (set_end_host this h).payload_length =
        (TRAFFIC_SELECTOR_HEADER_LENGTH + (set_end_host this h).starting_address.len
          + (set_end_host this h).ending_address.len) % 65536 ∧
      (set_end_host this h).ts_type = this.ts_type ∧
      (set_end_host this h).ip_protocol_id = this.ip_protocol_id ∧
      (set_end_host this h).start_port = this.start_port ∧
      (set_end_host this h).starting_address = this.starting_address) := by
  simp [set_start_host_eq, set_end_host_eq, TRAFFIC_SELECTOR_HEADER_LENGTH]

/-- C8. For every state and host h, get_start_host after set_start_host(h)
returns the host built by host_create_from_chunk from AF_INET, the raw address
bytes of h and the port of h, and get_end_host after set_end_host(h) likewise;
in every state the returned host is built with AF_INET from the stored address
and port, whatever ts_type is, and the getters leave the state unchanged. -/
theorem host_round_trip (K : Env) (this : private_traffic_selector_substructure_t)
    (h : host_t) (t : Nat) :
    ((get_start_host K (set_start_host this h)).1 =
        host_create_from_chunk K.AF_INET h.get_address_as_chunk h.get_port ∧
      (get_start_host K (set_start_host this h)).1.get_port = h.get_port ∧
      (get_start_host K (set_start_host this h)).1.get_address_as_chunk
        = h.get_address_as_chunk) ∧
    ((get_end_host K (set_end_host this h)).1 =
        host_create_from_chunk K.AF_INET h.get_address_as_chunk h.get_port ∧
      (get_end_host K (set_end_host this h)).1.get_port = h.get_port ∧
      (get_end_host K (set_end_host this h)).1.get_address_as_chunk
        = h.get_address_as_chunk) ∧
    ((get_start_host K this).1 =
        host_create_from_chunk K.AF_INET this.starting_address this.start_port ∧
      (get_end_host K this).1 =
        host_create_from_chunk K.AF_INET this.ending_address this.end_port ∧
      (get_start_host K this).1.family = K.AF_INET ∧
      (get_end_host K this).1.family = K.AF_INET) ∧
    ((get_start_host K (set_ts_type this t)).1 = (get_start_host K this).1 ∧
      (get_end_host K (set_ts_type this t)).1 = (get_end_host K this).1) ∧
    ((get_start_host K this).2 = this ∧ (get_end_host K this).2 = this) := by
  simp [get_start_host, get_end_host, set_start_host_eq, set_end_host_eq, set_ts_type,
    host_create_from_chunk, host_t.get_port, host_t.get_address_as_chunk]

/-- C9. Calling set_start_host twice keeps one start-address buffer
installed, the second host's. For every state and hosts h1, h2, the state
after set_start_host(h1) followed by set_start_host(h2) equals the state
after set_start_host(h2) alone. On the object in memory and the heap: the
buffer the first call installs holds the bytes of h1 after that call and is
released by the second call, the heap has as many live blocks as after
set_start_host(h2) alone (nothing leaks, nothing of h1 is retained), the
buffer installed at the end holds the bytes of h2, and, when the object owns
its two buffers, the object in memory after the two calls stands for the
state after set_start_host(h2) alone. The same holds for set_end_host. -/
theorem host_setter_twice (this : private_traffic_selector_substructure_t)
    (h1 h2 : host_t) (m : heap_t × object_in_memory) :
    ((set_start_host (set_start_host this h1) h2 = set_start_host this h2 ∧
        (set_start_host (set_start_host this h1) h2).starting_address
          = h2.get_address_as_chunk) ∧
      (set_end_host (set_end_host this h1) h2 = set_end_host this h2 ∧
        (set_end_host (set_end_host this h1) h2).ending_address
          = h2.get_address_as_chunk)) ∧
    ((∀ a, (set_start_host_in_memory m h1).2.starting_address.ptr = some a →
        (set_start_host_in_memory m h1).1.read a = h1.address.ptr ∧
        (set_start_host_in_memory (set_start_host_in_memory m h1) h2).1.read a = none) ∧
      (set_start_host_in_memory (set_start_host_in_memory m h1) h2).1.live_blocks =
        (set_start_host_in_memory m h2).1.live_blocks ∧
      (set_start_host_in_memory (set_start_host_in_memory m h1) h2).2.starting_address.value
          (set_start_host_in_memory (set_start_host_in_memory m h1) h2).1
        = h2.get_address_as_chunk ∧
      (owns_its_buffers m →
        object_in_memory.value (set_start_host_in_memory (set_start_host_in_memory m h1) h2)
          = set_start_host (object_in_memory.value m) h2)) ∧
    ((∀ a, (set_end_host_in_memory m h1).2.ending_address.ptr = some a →
        (set_end_host_in_memory m h1).1.read a = h1.address.ptr ∧
        (set_end_host_in_memory (set_end_host_in_memory m h1) h2).1.read a = none) ∧
      (set_end_host_in_memory (set_end_host_in_memory m h1) h2).1.live_blocks =
        (set_end_host_in_memory m h2).1.live_blocks ∧
      (set_end_host_in_memory (set_end_host_in_memory m h1) h2).2.ending_address.value
          (set_end_host_in_memory (set_end_host_in_memory m h1) h2).1
        = h2.get_address_as_chunk ∧
      (owns_its_buffers m →
        object_in_memory.value (set_end_host_in_memory (set_end_host_in_memory m h1) h2)
          = set_end_host (object_in_memory.value m) h2)) := by
  refine ⟨by simp [set_start_host_eq, set_end_host_eq], ⟨fun a ha => ⟨?_, ?_⟩, ?_, ?_, ?_⟩,
    ⟨fun a ha => ⟨?_, ?_⟩, ?_, ?_, ?_⟩⟩
  · have hi := start_buffer_installed m h1
    simp only [chunk_in_memory.value, ha, Option.some_bind, host_t.get_address_as_chunk] at hi
    rw [← hi]
  · exact start_buffer_released m h1 h2 a ha
  · exact start_no_leak m h1 h2
  · exact start_buffer_installed _ h2
  · intro ho
    rw [start_refines _ h2 (start_keeps_ownership m h1 ho), start_refines m h1 ho]
    simp [set_start_host_eq]
  · have hi := end_buffer_installed m h1
    simp only [chunk_in_memory.value, ha, Option.some_bind, host_t.get_address_as_chunk] at hi
    rw [← hi]
  · exact end_buffer_released m h1 h2 a ha
  · exact end_no_leak m h1 h2
  · exact end_buffer_installed _ h2
  · intro ho
    rw [end_refines _ h2 (end_keeps_ownership m h1 ho), end_refines m h1 ho]
    simp [set_end_host_eq]

/-- C9, at a concrete heap: an object owning the blocks 0 and 1 gets the start
hosts 10.0.0.1 and then 10.0.0.9. Block 0 is released by the first call, block
2, installed by the first call, is released by the second, and the object ends
with the one start buffer at address 3 holding 10.0.0.9; as an object it is
the one obtained by set_start_host with the second host alone. -/
theorem host_setter_twice_witness :
    set_start_host_in_memory
        (set_start_host_in_memory
          ({ blocks := [some [192, 168, 0, 1], some [192, 168, 0, 254]] },
            { ts_type := 7, ip_protocol_id := 6, payload_length := 16, start_port := 80,
              end_port := 443, starting_address := { ptr := some 0, len := 4 },
              ending_address := { ptr := some 1, len := 4 } })
          (host_ipv4 ikev2 10 0 0 1 1024))
        (host_ipv4 ikev2 10 0 0 9 2048) =
      ({ blocks := [none, some [192, 168, 0, 254], none, some [10, 0, 0, 9]] },
        { ts_type := 7, ip_protocol_id := 6, payload_length := 16, start_port := 2048,
          end_port := 443, starting_address := { ptr := some 3, len := 4 },
          ending_address := { ptr := some 1, len := 4 } }) ∧
    object_in_memory.value
        (set_start_host_in_memory
          (set_start_host_in_memory
            ({ blocks := [some [192, 168, 0, 1], some [192, 168, 0, 254]] },
              { ts_type := 7, ip_protocol_id := 6, payload_length := 16, start_port := 80,
                end_port := 443, starting_address := { ptr := some 0, len := 4 },
                ending_address := { ptr := some 1, len := 4 } })
            (host_ipv4 ikev2 10 0 0 1 1024))
          (host_ipv4 ikev2 10 0 0 9 2048)) =
      set_start_host
        (object_in_memory.value
          ({ blocks := [some [192, 168, 0, 1], some [192, 168, 0, 254]] },
            { ts_type := 7, ip_protocol_id := 6, payload_length := 16, start_port := 80,
              end_port := 443, starting_address := { ptr := some 0, len := 4 },
              ending_address := { ptr := some 1, len := 4 } }))
        (host_ipv4 ikev2 10 0 0 9 2048) :=
  ⟨by decide,
    (host_setter_twice (set_start_host (traffic_selector_substructure_create ikev2 true)
        (host_ipv4 ikev2 10 0 0 1 1024))
      (host_ipv4 ikev2 10 0 0 1 1024) (host_ipv4 ikev2 10 0 0 9 2048) _).2.1.2.2.2
      (by simp [owns_its_buffers])⟩

/-! ## Chaining -/

/-- C10. In every state get_next_type returns 0, and for every payload type t,
set_next_type(t) leaves every field of the instance unchanged and
get_next_type still returns 0 afterwards. -/
theorem next_type_fixed (this : private_traffic_selector_substructure_t) (t : Nat) :
    get_next_type this = 0 ∧
    set_next_type this t = this ∧
    get_next_type (set_next_type this t) = 0 :=
  ⟨rfl, rfl, rfl⟩

/-! ## Failure results -/

/-- C11, as stated, fails: a state with start_port > end_port, a state with
the IPv4 selector type and a 3-byte ending address, and a state with the IPv6
selector type all get the one result FAILED, so the three results are not
different from each other. -/
theorem verify_reason_counterexample :
    verify ikev2
        { ts_type := 7, ip_protocol_id := 0, payload_length := 16, start_port := 2,
          end_port := 1, starting_address := { ptr := some [10, 0, 0, 1], len := 4 },
          ending_address := { ptr := some [10, 0, 0, 2], len := 4 } } =
      verify ikev2
        { ts_type := 7, ip_protocol_id := 0, payload_length := 15, start_port := 1,
          end_port := 2, starting_address := { ptr := some [10, 0, 0, 1], len := 4 },
          ending_address := { ptr := some [10, 0, 0], len := 3 } } ∧
    verify ikev2
        { ts_type := 7, ip_protocol_id := 0, payload_length := 15, start_port := 1,
          end_port := 2, starting_address := { ptr := some [10, 0, 0, 1], len := 4 },
          ending_address := { ptr := some [10, 0, 0], len := 3 } } =
      verify ikev2
        { ts_type := 8, ip_protocol_id := 0, payload_length := 16, start_port := 1,
          end_port := 2, starting_address := { ptr := some [10, 0, 0, 1], len := 4 },
          ending_address := { ptr := some [10, 0, 0, 2], len := 4 } } ∧
    verify ikev2
        { ts_type := 8, ip_protocol_id := 0, payload_length := 16, start_port := 1,
          end_port := 2, starting_address := { ptr := some [10, 0, 0, 1], len := 4 },
          ending_address := { ptr := some [10, 0, 0, 2], len := 4 } } = status_t.FAILED := by
  decide

/-- C11, amended. The result of verify is SUCCESS or FAILED and nothing else:
a state with start_port > end_port, a state with the IPv4 selector type and a
wrong address length, and a state with an unsupported selector type all yield
the same result FAILED, which does not tell which check failed. -/
theorem verify_failure_is_one_result (K : Env)
    (s1 s2 s3 : private_traffic_selector_substructure_t)
    (h1 : s1.start_port > s1.end_port)
    (h2 : s2.ts_type = K.TS_IPV4_ADDR_RANGE ∧
      (s2.starting_address.len ≠ 4 ∨ s2.ending_address.len ≠ 4))
    (h3 : s3.ts_type ≠ K.TS_IPV4_ADDR_RANGE) :
    (verify K s1 = status_t.FAILED ∧ verify K s2 = status_t.FAILED ∧
      verify K s3 = status_t.FAILED) ∧
    (verify K s1 = verify K s2 ∧ verify K s2 = verify K s3) ∧
    (∀ s : private_traffic_selector_substructure_t,
      verify K s = status_t.SUCCESS ∨ verify K s = status_t.FAILED) := by
  have e1 := verify_eq_failed_of_ports K s1 h1
  have e2 := verify_eq_failed_of_len K s2 h2.2
  have e3 := verify_eq_failed_of_type K s3 h3
  refine ⟨⟨e1, e2, e3⟩, ⟨by rw [e1, e2], by rw [e2, e3]⟩, fun s => ?_⟩
  cases hv : verify K s
  · exact Or.inl rfl
  · exact Or.inr rfl

/-- C11, amended, at three concrete states: inverted ports, a 3-byte ending
address with the IPv4 type, and the IPv6 type. -/
theorem verify_failure_is_one_result_witness :
    verify ikev2
        { ts_type := 7, ip_protocol_id := 0, payload_length := 16, start_port := 2,
          end_port := 1, starting_address := { ptr := some [10, 0, 0, 1], len := 4 },
          ending_address := { ptr := some [10, 0, 0, 2], len := 4 } } = status_t.FAILED ∧
    verify ikev2
        { ts_type := 7, ip_protocol_id := 0, payload_length := 15, start_port := 1,
          end_port := 2, starting_address := { ptr := some [10, 0, 0, 1], len := 4 },
          ending_address := { ptr := some [10, 0, 0], len := 3 } } = status_t.FAILED ∧
    verify ikev2
        { ts_type := 8, ip_protocol_id := 0, payload_length := 16, start_port := 1,
          end_port := 2, starting_address := { ptr := some [10, 0, 0, 1], len := 4 },
          ending_address := { ptr := some [10, 0, 0, 2], len := 4 } } = status_t.FAILED :=
  (verify_failure_is_one_result ikev2 _ _ _ (by decide) (by decide) (by decide)).1

/-! ## Reachable instances -/

/-- C13. Every instance reachable from create by setter calls that passes
verify has get_length = 16. -/
theorem reachable_verified_length (K : Env) (is_initiator : Bool) (calls : List setter_call)
    (h : verify K (run_calls (traffic_selector_substructure_create K is_initiator) calls)
      = status_t.SUCCESS) :
    get_length (run_calls (traffic_selector_substructure_create K is_initiator) calls)
      = 16 := by
  have hc := length_consistent_run calls _ (length_consistent_create K is_initiator)
  obtain ⟨_, _, hs, he⟩ := verify_success_imp K _ h
  unfold length_consistent at hc
  unfold get_length
  rw [hc, hs, he]

/-- C13, at a concrete sequence of setter calls whose result passes verify. -/
theorem reachable_verified_length_witness :
    verify ikev2 (run_calls (traffic_selector_substructure_create ikev2 true)
        [setter_call.set_ts_type 8,
         setter_call.set_start_host (host_of_length ikev2 16 5),
         setter_call.set_start_host (host_ipv4 ikev2 172 16 0 0 80),
         setter_call.set_end_host (host_ipv4 ikev2 172 16 255 255 443),
         setter_call.set_ts_type 7]) = status_t.SUCCESS ∧
    get_length (run_calls (traffic_selector_substructure_create ikev2 true)
        [setter_call.set_ts_type 8,
         setter_call.set_start_host (host_of_length ikev2 16 5),
         setter_call.set_start_host (host_ipv4 ikev2 172 16 0 0 80),
         setter_call.set_end_host (host_ipv4 ikev2 172 16 255 255 443),
         setter_call.set_ts_type 7]) = 16 :=
  ⟨by decide, reachable_verified_length ikev2 true _ (by decide)⟩

/-! ## Port order -/

/-- C15. The host setters are total and store the port of h whatever the other
port is, also when that makes start_port > end_port; every state in which a
setter has left start_port > end_port fails verify. -/
theorem port_order_checked_at_verify (K : Env)
    (this : private_traffic_selector_substructure_t) (h : host_t) :
    (set_start_host this h).start_port = h.get_port ∧
    (set_end_host this h).end_port = h.get_port ∧
    (h.get_port > this.end_port →
      (set_start_host this h).start_port > (set_start_host this h).end_port ∧
      verify K (set_start_host this h) = status_t.FAILED) ∧
    (this.start_port > h.get_port →
      (set_end_host this h).start_port > (set_end_host this h).end_port ∧
      verify K (set_end_host this h) = status_t.FAILED) := by
  refine ⟨by simp [set_start_host_eq], by simp [set_end_host_eq], fun hp => ?_, fun hp => ?_⟩
  · have hgt : (set_start_host this h).start_port > (set_start_host this h).end_port := by
      simpa [set_start_host_eq] using hp
    exact ⟨hgt, verify_eq_failed_of_ports K _ hgt⟩
  · have hgt : (set_end_host this h).start_port > (set_end_host this h).end_port := by
      simpa [set_end_host_eq] using hp
    exact ⟨hgt, verify_eq_failed_of_ports K _ hgt⟩

/-- C15, at the concrete input: from a fresh instance, set_start_host with
port 1 and a 4-byte address, then set_end_host with port 0 and a 4-byte
address, gives the state with start_port 1 and end_port 0, which verify
rejects. -/
theorem port_order_checked_at_verify_witness :
    set_end_host (set_start_host (traffic_selector_substructure_create ikev2 true)
        (host_ipv4 ikev2 10 0 0 1 1)) (host_ipv4 ikev2 10 0 0 2 0) =
      { ts_type := 7, ip_protocol_id := 0, payload_length := 16, start_port := 1,
        end_port := 0, starting_address := { ptr := some [10, 0, 0, 1], len := 4 },
        ending_address := { ptr := some [10, 0, 0, 2], len := 4 } } ∧
    ((set_end_host (set_start_host (traffic_selector_substructure_create ikev2 true)
        (host_ipv4 ikev2 10 0 0 1 1)) (host_ipv4 ikev2 10 0 0 2 0)).start_port >
      (set_end_host (set_start_host (traffic_selector_substructure_create ikev2 true)
        (host_ipv4 ikev2 10 0 0 1 1)) (host_ipv4 ikev2 10 0 0 2 0)).end_port ∧
    verify ikev2 (set_end_host (set_start_host (traffic_selector_substructure_create ikev2 true)
        (host_ipv4 ikev2 10 0 0 1 1)) (host_ipv4 ikev2 10 0 0 2 0)) = status_t.FAILED) :=
  ⟨by decide,
    (port_order_checked_at_verify ikev2
      (set_start_host (traffic_selector_substructure_create ikev2 true)
        (host_ipv4 ikev2 10 0 0 1 1)) (host_ipv4 ikev2 10 0 0 2 0)).2.2.2 (by decide)⟩

/-! ## The stored length is a 16-bit value -/

/-- C16. After set_start_host or set_end_host, payload_length equals
(8 + starting_address.len + ending_address.len) mod 2^16; it equals the exact
sum whenever the two address lengths sum to at most 65527, in particular when
each of the two addresses is 4 or 16 bytes long. -/
theorem payload_length_16_bit (this : private_traffic_selector_substructure_t) (h : host_t) :
    ((set_start_host this h).payload_length =
        (8 + (set_start_host this h).starting_address.len
          + (set_start_host this h).ending_address.len) % 2 ^ 16 ∧
      (set_end_host this h).payload_length =
        (8 + (set_end_host this h).starting_address.len
          + (set_end_host this h).ending_address.len) % 2 ^ 16) ∧
    (((set_start_host this h).starting_address.len
          + (set_start_host this h).ending_address.len ≤ 65527 →
        (set_start_host this h).payload_length =
          8 + (set_start_host this h).starting_address.len
            + (set_start_host this h).ending_address.len) ∧
      ((set_end_host this h).starting_address.len
          + (set_end_host this h).ending_address.len ≤ 65527 →
        (set_end_host this h).payload_length =
          8 + (set_end_host this h).starting_address.len
            + (set_end_host this h).ending_address.len)) ∧
    (((h.get_address_as_chunk.len = 4 ∨ h.get_address_as_chunk.len = 16) ∧
        (this.ending_address.len = 4 ∨ this.ending_address.len = 16) →
        (set_start_host this h).payload_length =
          8 + (set_start_host this h).starting_address.len
            + (set_start_host this h).ending_address.len) ∧
      ((h.get_address_as_chunk.len = 4 ∨ h.get_address_as_chunk.len = 16) ∧
        (this.starting_address.len = 4 ∨ this.starting_address.len = 16) →
        (set_end_host this h).payload_length =
          8 + (set_end_host this h).starting_address.len
            + (set_end_host this h).ending_address.len)) := by
  simp only [set_start_host_eq, set_end_host_eq]
  refine ⟨⟨by norm_num, by norm_num⟩, ⟨fun hle => ?_, fun hle => ?_⟩,
    ⟨fun hl => ?_, fun hl => ?_⟩⟩
  · apply Nat.mod_eq_of_lt
    simp only at hle
    omega
  · apply Nat.mod_eq_of_lt
    simp only at hle
    omega
  · apply Nat.mod_eq_of_lt
    omega
  · apply Nat.mod_eq_of_lt
    omega

/-- C16, at concrete inputs: a 16-byte host set on both sides stores 40, and a
65528-byte start host on a fresh instance stores 65536 mod 2^16 = 0. -/
theorem payload_length_16_bit_witness :
    (set_end_host (set_start_host (traffic_selector_substructure_create ikev2 true)
        (host_of_length ikev2 16 0)) (host_of_length ikev2 16 9)).payload_length
      = 8 + (set_end_host (set_start_host (traffic_selector_substructure_create ikev2 true)
          (host_of_length ikev2 16 0)) (host_of_length ikev2 16 9)).starting_address.len
        + (set_end_host (set_start_host (traffic_selector_substructure_create ikev2 true)
          (host_of_length ikev2 16 0)) (host_of_length ikev2 16 9)).ending_address.len ∧
    (set_start_host (traffic_selector_substructure_create ikev2 true)
        (host_of_length ikev2 65528 0)).payload_length = 0 :=
  ⟨(payload_length_16_bit (set_start_host (traffic_selector_substructure_create ikev2 true)
      (host_of_length ikev2 16 0)) (host_of_length ikev2 16 9)).2.2.2
      ⟨Or.inr rfl, Or.inr rfl⟩,
    rfl⟩

/-! ## What verify reads -/

/-- C17. Any two states that agree on ts_type, start_port, end_port and the
two address lengths get the same verify result, whatever their
payload_length, ip_protocol_id and address contents; and a state whose
payload_length differs from 8 + starting_address.len + ending_address.len can
pass verify. -/
theorem verify_ignores_length_and_protocol (K : Env)
    (s1 s2 : private_traffic_selector_substructure_t)
    (ht : s1.ts_type = s2.ts_type) (hs : s1.start_port = s2.start_port)
    (he : s1.end_port = s2.end_port)
    (hsl : s1.starting_address.len = s2.starting_address.len)
    (hel : s1.ending_address.len = s2.ending_address.len) :
    verify K s1 = verify K s2 ∧
    ∃ s : private_traffic_selector_substructure_t,
      s.payload_length ≠ 8 + s.starting_address.len + s.ending_address.len ∧
      verify K s = status_t.SUCCESS := by
  refine ⟨by simp [verify, ht, hs, he, hsl, hel], ?_⟩
  refine ⟨{ ts_type := K.TS_IPV4_ADDR_RANGE, ip_protocol_id := 0, payload_length := 9999,
            start_port := 0, end_port := 0,
            starting_address := { ptr := some [0, 0, 0, 0], len := 4 },
            ending_address := { ptr := some [0, 0, 0, 0], len := 4 } }, by simp, ?_⟩
  apply verify_eq_success <;> simp

/-- C17, at two concrete states that differ in payload_length, protocol id and
address bytes: both pass verify, the second with payload_length 9999. -/
theorem verify_ignores_length_and_protocol_witness :
    verify ikev2
        { ts_type := 7, ip_protocol_id := 6, payload_length := 16, start_port := 1024,
          end_port := 65535, starting_address := { ptr := some [10, 0, 0, 1], len := 4 },
          ending_address := { ptr := some [10, 0, 0, 255], len := 4 } } =
      verify ikev2
        { ts_type := 7, ip_protocol_id := 17, payload_length := 9999, start_port := 1024,
          end_port := 65535, starting_address := { ptr := some [192, 168, 1, 1], len := 4 },
          ending_address := { ptr := some [192, 168, 1, 9], len := 4 } } ∧
    verify ikev2
        { ts_type := 7, ip_protocol_id := 17, payload_length := 9999, start_port := 1024,
          end_port := 65535, starting_address := { ptr := some [192, 168, 1, 1], len := 4 },
          ending_address := { ptr := some [192, 168, 1, 9], len := 4 } } = status_t.SUCCESS :=
  ⟨(verify_ignores_length_and_protocol ikev2 _ _ rfl rfl rfl rfl rfl).1, by decide⟩

/-! ## Algebra of the setters -/

/-- C18. The two host setters commute: for every state and hosts h1, h2,
set_start_host(h1) followed by set_end_host(h2) yields the same state as
set_end_host(h2) followed by set_start_host(h1). -/
theorem host_setters_commute (this : private_traffic_selector_substructure_t)
    (h1 h2 : host_t) :
    set_end_host (set_start_host this h1) h2 = set_start_host (set_end_host this h2) h1 := by
  simp [set_start_host_eq, set_end_host_eq]

/-- C19. For every state, selector type t representable in 8 bits and
protocol id p (a u_int8_t), get_ts_type after set_ts_type(t) returns t and
get_protocol_id after set_protocol_id(p) returns p, and neither setter changes
payload_length, the ports, the address buffers or the other of the two
fields. -/
theorem type_and_protocol_setters_frame (this : private_traffic_selector_substructure_t)
    (t p : Nat) (ht : t < 256) (hp : p < 256) :
    (get_ts_type (set_ts_type this t) = t ∧
      set_ts_type this t = { this with ts_type := t } ∧
      (set_ts_type this t).ip_protocol_id = this.ip_protocol_id ∧
      (set_ts_type this t).payload_length = this.payload_length ∧
      get_length (set_ts_type this t) = get_length this ∧
      (set_ts_type this t).start_port = this.start_port ∧
      (set_ts_type this t).end_port = this.end_port ∧
      (set_ts_type this t).starting_address = this.starting_address ∧
      (set_ts_type this t).ending_address = this.ending_address) ∧
    (get_protocol_id (set_protocol_id this p) = p ∧
      set_protocol_id this p = { this with ip_protocol_id := p } ∧
      (set_protocol_id this p).ts_type = this.ts_type ∧
      (set_protocol_id this p).payload_length = this.payload_length ∧
      get_length (set_protocol_id this p) = get_length this ∧
      (set_protocol_id this p).start_port = this.start_port ∧
      (set_protocol_id this p).end_port = this.end_port ∧
      (set_protocol_id this p).starting_address = this.starting_address ∧
      (set_protocol_id this p).ending_address = this.ending_address) := by
  simp [get_ts_type, set_ts_type, get_protocol_id, set_protocol_id, get_length,
    Nat.mod_eq_of_lt ht, Nat.mod_eq_of_lt hp]

/-- C19, at a concrete state: changing the selector type of a 16-byte
instance to 8 and its protocol id to 17 leaves the two 4-byte addresses and
the length 16 in place. -/
theorem type_and_protocol_setters_frame_witness :
    set_protocol_id (set_ts_type
        { ts_type := 7, ip_protocol_id := 6, payload_length := 16, start_port := 1024,
          end_port := 65535, starting_address := { ptr := some [10, 0, 0, 1], len := 4 },
          ending_address := { ptr := some [10, 0, 0, 255], len := 4 } } 8) 17 =
      { ts_type := 8, ip_protocol_id := 17, payload_length := 16, start_port := 1024,
        end_port := 65535, starting_address := { ptr := some [10, 0, 0, 1], len := 4 },
        ending_address := { ptr := some [10, 0, 0, 255], len := 4 } } ∧
    get_ts_type (set_ts_type
        { ts_type := 7, ip_protocol_id := 6, payload_length := 16, start_port := 1024,
          end_port := 65535, starting_address := { ptr := some [10, 0, 0, 1], len := 4 },
          ending_address := { ptr := some [10, 0, 0, 255], len := 4 } } 8) = 8 :=
  ⟨by decide, (type_and_protocol_setters_frame _ 8 17 (by decide) (by decide)).1.1⟩

/-! ## The rule table -/

/-- C12, as stated, fails in its last part: after set_end_host with a host
whose address chunk is 65528 bytes long on a fresh instance, the fixed bytes
of the table plus the two address lengths are 65536 while get_length
returns 0. -/
theorem encoding_rules_length_counterexample :
    fixed_bytes (get_encoding_rules (set_end_host
        (traffic_selector_substructure_create ikev2 false) (host_of_length ikev2 65528 0))).1
      + (set_end_host (traffic_selector_substructure_create ikev2 false)
          (host_of_length ikev2 65528 0)).starting_address.len
      + (set_end_host (traffic_selector_substructure_create ikev2 false)
          (host_of_length ikev2 65528 0)).ending_address.len = 65536 ∧
    get_length (set_end_host (traffic_selector_substructure_create ikev2 false)
        (host_of_length ikev2 65528 0)) = 0 ∧
    fixed_bytes (get_encoding_rules (set_end_host
        (traffic_selector_substructure_create ikev2 false) (host_of_length ikev2 65528 0))).1
      + (set_end_host (traffic_selector_substructure_create ikev2 false)
          (host_of_length ikev2 65528 0)).starting_address.len
      + (set_end_host (traffic_selector_substructure_create ikev2 false)
          (host_of_length ikev2 65528 0)).ending_address.len ≠
    get_length (set_end_host (traffic_selector_substructure_create ikev2 false)
        (host_of_length ikev2 65528 0)) := by
  have e : set_end_host (traffic_selector_substructure_create ikev2 false)
      (host_of_length ikev2 65528 0) =
      { ts_type := 7, ip_protocol_id := 0, payload_length := 0, start_port := 0,
        end_port := 0, starting_address := CHUNK_INITIALIZER,
        ending_address := { ptr := some (List.replicate 65528 0), len := 65528 } } := rfl
  rw [e]
  refine ⟨rfl, rfl, ?_⟩
  simp [get_length, get_encoding_rules, fixed_bytes, traffic_selector_substructure_encodings,
    encoding_type_t.fixed_width, CHUNK_INITIALIZER]

/-- C12, amended. In every state get_encoding_rules returns the same table of
exactly 7 rules in wire order: TS_TYPE -> ts_type, U_INT_8 -> ip_protocol_id,
PAYLOAD_LENGTH -> payload_length, U_INT_16 -> start_port, U_INT_16 -> end_port,
ADDRESS -> starting_address, ADDRESS -> ending_address; the widths of its
fixed-width rules (1+1+2+2+2) sum to the 8-byte header length; and for every
instance built by create and the setters the fixed bytes plus the two address
lengths equal get_length modulo 2^16, and equal get_length whenever the two
address lengths sum to at most 65527. -/
theorem encoding_rules_table (K : Env) (this : private_traffic_selector_substructure_t)
    (is_initiator : Bool) (calls : List setter_call) :
    (get_encoding_rules this =
      ([ { type := encoding_type_t.TS_TYPE, offset := member_t.ts_type },
         { type := encoding_type_t.U_INT_8, offset := member_t.ip_protocol_id },
         { type := encoding_type_t.PAYLOAD_LENGTH, offset := member_t.payload_length },
         { type := encoding_type_t.U_INT_16, offset := member_t.start_port },
         { type := encoding_type_t.U_INT_16, offset := member_t.end_port },
         { type := encoding_type_t.ADDRESS, offset := member_t.starting_address },
         { type := encoding_type_t.ADDRESS, offset := member_t.ending_address } ], 7)) ∧
    ((get_encoding_rules this).1.map fun r => r.type.fixed_width) = [1, 1, 2, 2, 2, 0, 0] ∧
    fixed_bytes (get_encoding_rules this).1 = 8 ∧
    fixed_bytes (get_encoding_rules this).1 = TRAFFIC_SELECTOR_HEADER_LENGTH ∧
    get_length (run_calls (traffic_selector_substructure_create K is_initiator) calls) =
      (fixed_bytes (get_encoding_rules
            (run_calls (traffic_selector_substructure_create K is_initiator) calls)).1
        + (run_calls (traffic_selector_substructure_create K is_initiator)
            calls).starting_address.len
        + (run_calls (traffic_selector_substructure_create K is_initiator)
            calls).ending_address.len) % 65536 ∧
    ((run_calls (traffic_selector_substructure_create K is_initiator)
          calls).starting_address.len
        + (run_calls (traffic_selector_substructure_create K is_initiator)
          calls).ending_address.len ≤ 65527 →
      get_length (run_calls (traffic_selector_substructure_create K is_initiator) calls) =
        fixed_bytes (get_encoding_rules
            (run_calls (traffic_selector_substructure_create K is_initiator) calls)).1
          + (run_calls (traffic_selector_substructure_create K is_initiator)
              calls).starting_address.len
          + (run_calls (traffic_selector_substructure_create K is_initiator)
              calls).ending_address.len) := by
  have hc := length_consistent_run calls _ (length_consistent_create K is_initiator)
  unfold length_consistent at hc
  have hf : ∀ s : private_traffic_selector_substructure_t,
      fixed_bytes (get_encoding_rules s).1 = 8 := fun _ => rfl
  refine ⟨rfl, rfl, rfl, rfl, ?_, fun hle => ?_⟩
  · rw [hf]; exact hc
  · rw [hf]
    unfold get_length
    rw [hc]
    apply Nat.mod_eq_of_lt
    omega

/-- C12, amended, at a concrete instance: for the instance built with two
4-byte hosts the 8 fixed bytes plus 4 + 4 are the 16 that get_length
returns. -/
theorem encoding_rules_table_witness :
    get_length (run_calls (traffic_selector_substructure_create ikev2 true)
        [setter_call.set_start_host (host_ipv4 ikev2 10 0 0 1 1024),
         setter_call.set_end_host (host_ipv4 ikev2 10 0 0 255 65535)]) =
      fixed_bytes (get_encoding_rules
        (run_calls (traffic_selector_substructure_create ikev2 true)
          [setter_call.set_start_host (host_ipv4 ikev2 10 0 0 1 1024),
           setter_call.set_end_host (host_ipv4 ikev2 10 0 0 255 65535)])).1
      + (run_calls (traffic_selector_substructure_create ikev2 true)
          [setter_call.set_start_host (host_ipv4 ikev2 10 0 0 1 1024),
           setter_call.set_end_host (host_ipv4 ikev2 10 0 0 255 65535)]).starting_address.len
      + (run_calls (traffic_selector_substructure_create ikev2 true)
          [setter_call.set_start_host (host_ipv4 ikev2 10 0 0 1 1024),
           setter_call.set_end_host (host_ipv4 ikev2 10 0 0 255 65535)]).ending_address.len :=
  (encoding_rules_table ikev2 (traffic_selector_substructure_create ikev2 true) true _).2.2.2.2.2
    (by decide)

/-! ## Encode and decode -/

/-- C14. Encode then decode is the identity: for every instance that passes
verify, serialising it with the rule table
traffic_selector_substructure_encodings and parsing the resulting bytes with
the same table succeeds and yields an instance with identical ts_type,
ip_protocol_id, start_port, end_port and address bytes (the instance itself).
An instance is an object created by create or populated by decode from a
sequence of bytes, and then changed by any setter calls whose hosts hand out
well-formed address chunks. -/
theorem encode_decode_identity (K : Env) (this : private_traffic_selector_substructure_t)
    (hr : reachable K this) (hv : verify K this = status_t.SUCCESS) :
    decode K (encode this traffic_selector_substructure_encodings)
      traffic_selector_substructure_encodings = Except.ok this ∧
    (encode this traffic_selector_substructure_encodings).length = 16 ∧
    ∃ parsed : private_traffic_selector_substructure_t,
      decode K (encode this traffic_selector_substructure_encodings)
        traffic_selector_substructure_encodings = Except.ok parsed ∧
      parsed.ts_type = this.ts_type ∧ parsed.ip_protocol_id = this.ip_protocol_id ∧
      parsed.start_port = this.start_port ∧ parsed.end_port = this.end_port ∧
      parsed.starting_address = this.starting_address ∧
      parsed.ending_address = this.ending_address := by
  obtain ⟨hin, hl⟩ := in_range_of_invariant K this (invariant_of_reachable K this hr) hv
  have hd := decode_encode_of_verified K this hin hv hl
  refine ⟨hd, ?_, this, hd, rfl, rfl, rfl, rfl, rfl, rfl⟩
  obtain ⟨_, _, hs, he⟩ := verify_success_imp K this hv
  obtain ⟨a0, a1, a2, a3, ha⟩ := chunk_of_length_four _ hin.2.2.2.2.2.1 hs
  obtain ⟨b0, b1, b2, b3, hb⟩ := chunk_of_length_four _ hin.2.2.2.2.2.2 he
  simp [encode, traffic_selector_substructure_encodings, generate_rule, member_t.read_chunk,
    chunk_t.bytes, ha, hb]

/-- C14, at the end-to-end example: the instance built from create by
set_protocol_id(6), set_start_host(10.0.0.1 port 1024) and
set_end_host(10.0.0.255 port 65535) is encoded as the 16-byte sequence of the
wire layout, and parsing these bytes gives the instance back. -/
theorem encode_decode_identity_witness :
    encode (set_end_host (set_start_host
        (set_protocol_id (traffic_selector_substructure_create ikev2 true) 6)
        (host_ipv4 ikev2 10 0 0 1 1024)) (host_ipv4 ikev2 10 0 0 255 65535))
      traffic_selector_substructure_encodings =
      [7, 6, 0, 16, 4, 0, 255, 255, 10, 0, 0, 1, 10, 0, 0, 255] ∧
    decode ikev2 (encode (set_end_host (set_start_host
        (set_protocol_id (traffic_selector_substructure_create ikev2 true) 6)
        (host_ipv4 ikev2 10 0 0 1 1024)) (host_ipv4 ikev2 10 0 0 255 65535))
      traffic_selector_substructure_encodings) traffic_selector_substructure_encodings =
      Except.ok (set_end_host (set_start_host
        (set_protocol_id (traffic_selector_substructure_create ikev2 true) 6)
        (host_ipv4 ikev2 10 0 0 1 1024)) (host_ipv4 ikev2 10 0 0 255 65535)) :=
  ⟨rfl,
    (encode_decode_identity ikev2 _
      (reachable.setter _ (setter_call.set_end_host (host_ipv4 ikev2 10 0 0 255 65535))
        (reachable.setter _ (setter_call.set_start_host (host_ipv4 ikev2 10 0 0 1 1024))
          (reachable.setter _ (setter_call.set_protocol_id 6)
            (reachable.create true) trivial)
          rfl)
        rfl)
      (by decide)).1⟩

end TrafficSelector
